import Mathlib

/-!
Verification of the procedural lighting-configuration engine of
`bpyrenderer` (file `src/bpyrenderer/lighting.py`).

The embedding below models Python floats as exact rationals (`ℚ`) and
parametrises the transcendental functions the samplers use (`math.pi`,
`sin`, `cos`, `sqrt`, `atan2`) by an arbitrary interpretation `MathFns`,
so every theorem quantified over `MathFns` holds in particular for the
real-number interpretation.  Python dictionaries are insertion-ordered
association lists (`Dict`); Python exceptions are the `PyErr` type,
keeping the distinction between `ValueError`, `KeyError` and `TypeError`
and their messages.  The Blender scene is a list of materialized lights
threaded through a `World` state together with the random source, so
that "consumes no randomness" and "lights created before a failure stay
in the scene" are expressible.
-/

/-- A Python/JSON-like value as stored in the lighting metadata records. -/
inductive JVal where
  | num (q : ℚ)
  | str (s : String)
  | arr (xs : List JVal)
  | obj (fields : List (String × JVal))

/-- A Python dict: an insertion-ordered association list. -/
abbrev Dict := List (String × JVal)

/-- First-match lookup in a dict (Python dict keys are unique, so
first-match agrees with Python lookup). -/
def dictGet : Dict → String → Option JVal
  | [], _ => none
  | (k, v) :: rest, key => if k = key then some v else dictGet rest key

/-- Python `k in d` membership test. -/
def hasKey (d : Dict) (k : String) : Bool := (dictGet d k).isSome

/-- Python exceptions raised by the lighting module, with their kind and
message.  `keyError` covers both explicit `raise KeyError(msg)` and the
implicit `d[k]` lookup failure (whose message is the key itself);
`typeError` models the interpreter-level failures when a record field
has the wrong shape for the materialization boundary. -/
inductive PyErr where
  | valueError (msg : String)
  | keyError (msg : String)
  | typeError
deriving DecidableEq, Repr

/-- 3-vectors of exact rationals (positions, rotations, colors). -/
abbrev Vec3 := ℚ × ℚ × ℚ

/-- A materialized Blender light, as configured by `add_point_light`,
`add_area_light` and `add_sun_light`: exactly the data those functions
write onto the created light object.  `size_y` is `none` when the shape
is not `RECTANGLE`/`ELLIPSE` (the source leaves `size_y` untouched). -/
inductive Light where
  | point (location : Vec3) (energy : ℚ) (color : Vec3) (size : ℚ)
  | area (location : Vec3) (rotation : Vec3) (energy : ℚ) (color : Vec3)
      (size : ℚ) (size_y : Option ℚ) (shape : String)
  | sun (rotation : Vec3) (energy : ℚ) (color : Vec3) (angle : ℚ)
deriving DecidableEq, Repr

/-- The light's Blender type tag. -/
def Light.kindOf : Light → String
  | .point .. => "point"
  | .area .. => "area"
  | .sun .. => "sun"

/-- The random source: a stream of unit-interval draws (for
`random.uniform` / `random.random`) and a stream of naturals (for
`random.randint`).  An exhausted stream yields the draw 0. -/
structure Rng where
  us : List ℚ
  ns : List Nat
deriving DecidableEq, Repr

/-- Pop one unit draw. -/
def Rng.nextU : Rng → ℚ × Rng
  | ⟨[], ns⟩ => (0, ⟨[], ns⟩)
  | ⟨u :: us, ns⟩ => (u, ⟨us, ns⟩)

/-- Pop one integer draw. -/
def Rng.nextN : Rng → Nat × Rng
  | ⟨us, []⟩ => (0, ⟨us, []⟩)
  | ⟨us, n :: ns⟩ => (n, ⟨us, ns⟩)

/-- A random source is valid when every unit draw lies in `[0, 1]`
(as `random.random()` guarantees). -/
def Rng.valid (r : Rng) : Prop := ∀ u ∈ r.us, 0 ≤ u ∧ u ≤ 1

/-- The ambient state the module mutates: the current scene's lights
(in creation order) and the global random source. -/
structure World where
  scene : List Light
  rng : Rng
deriving DecidableEq, Repr

/-- `random.uniform(a, b) = a + (b - a) * random()`. -/
def uniform (a b : ℚ) (w : World) : ℚ × World :=
  let p := w.rng.nextU
  (a + (b - a) * p.1, { w with rng := p.2 })

/-- `random.randint(lo, hi)`: an integer in `[lo, hi]`, both ends
included. -/
def randint (lo hi : Nat) (w : World) : Nat × World :=
  let p := w.rng.nextN
  (lo + p.1 % (hi + 1 - lo), { w with rng := p.2 })

/-- The interpretation of the transcendental math functions used by the
samplers (`math.pi`, `np.sin`, `np.cos`, `math.sqrt`, `math.atan2`).
Theorems quantify over an arbitrary interpretation. -/
structure MathFns where
  pi : ℚ
  sin : ℚ → ℚ
  cos : ℚ → ℚ
  sqrt : ℚ → ℚ
  atan2 : ℚ → ℚ → ℚ

/-- `math.radians(x) = x * pi / 180`. -/
def radians (M : MathFns) (x : ℚ) : ℚ := x * M.pi / 180

/-- `blackbody_to_rgb` (lighting.py:171): piecewise-linear color
temperature to RGB approximation, first branch for `temperature ≤ 4000`.
The source's decimal literals 0.7, 0.3, 0.4, 0.6, 0.8, 0.2 are written
as the equal exact fractions. -/
def blackbody_to_rgb (temperature : ℚ) : Vec3 :=
  if temperature ≤ 4000 then
    (1, 7/10 + 3/10 * (temperature - 2700) / 1300,
     2/5 + 3/5 * (temperature - 2700) / 1300)
  else
    (1, 1, 4/5 + 1/5 * (temperature - 4000) / 2500)

/-- `add_point_light` (lighting.py:8): creates a point light, links it
into the scene, returns it. -/
def add_point_light (location : Vec3) (energy : ℚ) (color : Vec3)
    (size : ℚ) (w : World) : Light × World :=
  let l := Light.point location energy color size
  (l, { w with scene := w.scene ++ [l] })

/-- `add_area_light` (lighting.py:30): creates an area light;
`light_data.size = size[0]`, and `size_y = size[1]` only when the shape
is `RECTANGLE` or `ELLIPSE`. -/
def add_area_light (location : Vec3) (rotation : Vec3) (energy : ℚ)
    (color : Vec3) (size : ℚ × ℚ) (shape : String) (w : World) :
    Light × World :=
  let sy : Option ℚ :=
    if shape = "RECTANGLE" ∨ shape = "ELLIPSE" then some size.2 else none
  let l := Light.area location rotation energy color size.1 sy shape
  (l, { w with scene := w.scene ++ [l] })

/-- `add_sun_light` (lighting.py:65). -/
def add_sun_light (rotation : Vec3) (energy : ℚ) (color : Vec3)
    (angle : ℚ) (w : World) : Light × World :=
  let l := Light.sun rotation energy color angle
  (l, { w with scene := w.scene ++ [l] })

/-- `setup_studio_lighting` (lighting.py:121): three area lights at
fixed canonical poses; all calls use the default `RECTANGLE` shape. -/
def setup_studio_lighting (M : MathFns)
    (key_light_energy fill_light_energy back_light_energy : ℚ)
    (key_light_color fill_light_color back_light_color : Vec3)
    (w : World) : List Light × World :=
  let k := add_area_light (4, -4, 4)
    (radians M 45, radians M 0, radians M 45)
    key_light_energy key_light_color (2, 1) "RECTANGLE" w
  let f := add_area_light (-4, -4, 2)
    (radians M 30, radians M 0, radians M (-45))
    fill_light_energy fill_light_color (3, 2) "RECTANGLE" k.2
  let b := add_area_light (0, 4, 3)
    (radians M (-45), radians M 0, radians M 0)
    back_light_energy back_light_color (2, 1/2) "RECTANGLE" f.2
  ([k.1, f.1, b.1], b.2)

/-- The valid lighting types, in the key order of the source's
`lighting_types` dict (lighting.py:208). -/
def lighting_type_names : List String :=
  ["studio", "dramatic", "natural", "random", "env_map"]

/-- The weighted-categorical distribution over lighting types
(studio 0.25, dramatic 0.2, natural 0.25, random 0.15, env_map 0.15). -/
def lighting_type_weights : List (String × ℚ) :=
  [("studio", 1/4), ("dramatic", 1/5), ("natural", 1/4),
   ("random", 3/20), ("env_map", 3/20)]

/-- `random.choices(names, weights)` with one unit draw `x` scaled by the
total weight 1.0: walk the cumulative weights, returning the first name
whose cumulative weight exceeds `x` (the last name when `x` falls past
the end, as `bisect` does for draws at the boundary). -/
def pickWeighted : List (String × ℚ) → ℚ → String
  | [], _ => ""
  | [(n, _)], _ => n
  | (n, wt) :: rest, x => if x < wt then n else pickWeighted rest (x - wt)

/-- One studio metadata light entry, with the source's key order
(lighting.py:266). -/
def studioMetaEntry (role : String) (energy temp : ℚ)
    (position rotation size : List ℚ) : JVal :=
  .obj [("type", .str "area"), ("role", .str role),
        ("energy", .num energy), ("color_temperature", .num temp),
        ("position", .arr (position.map .num)),
        ("rotation", .arr (rotation.map .num)),
        ("size", .arr (size.map .num))]

/-- The studio branch of `generate_random_lighting_setup`
(lighting.py:246): six uniform draws, then fixed-pose studio lights and
the metadata record.  Color-temperature bands: key neutral
`[4000, 5500]`, fill cool `[6000, 7500]`, back warm `[2700, 3500]`. -/
def studioBranch (M : MathFns) (w : World) : List Light × Dict × World :=
  let (key_energy, w1) := uniform 800 1500 w
  let (fill_energy, w2) := uniform 200 600 w1
  let (back_energy, w3) := uniform 400 800 w2
  let (key_temp, w4) := uniform 4000 5500 w3
  let (fill_temp, w5) := uniform 6000 7500 w4
  let (back_temp, w6) := uniform 2700 3500 w5
  let p := setup_studio_lighting M key_energy fill_energy back_energy
    (blackbody_to_rgb key_temp) (blackbody_to_rgb fill_temp)
    (blackbody_to_rgb back_temp) w6
  (p.1,
   [("lighting_type", JVal.str "studio"),
    ("lights", JVal.arr
      [studioMetaEntry "key" key_energy key_temp [4, -4, 4]
         [radians M 45, 0, radians M 45] [2, 1],
       studioMetaEntry "fill" fill_energy fill_temp [-4, -4, 2]
         [radians M 30, 0, radians M (-45)] [3, 2],
       studioMetaEntry "back" back_energy back_temp [0, 4, 3]
         [radians M (-45), 0, 0] [2, 1/2]])],
   p.2)

/-- The env_map branch (lighting.py:239): no lights; the metadata dict
keeps the initial empty `lights` list and gains an `env_map.strength`
entry, strength drawn from `[0.8, 1.5]`. -/
def envBranch (w : World) : List Light × Dict × World :=
  let (strength, w1) := uniform (4/5) (3/2) w
  ([],
   [("lighting_type", JVal.str "env_map"), ("lights", JVal.arr []),
    ("env_map", JVal.obj [("strength", JVal.num strength)])],
   w1)

/-- One dramatic-branch iteration after its seven uniform draws
(lighting.py:299-341): spherical position in the upper hemisphere,
rotation aimed at the origin, area light plus its metadata entry. -/
def dramaticIterFrom (M : MathFns) (theta phi r energy temp s1 s2 : ℚ)
    (i : Nat) (w : World) : Light × JVal × World :=
  let pos : Vec3 := (r * M.sin phi * M.cos theta,
                     r * M.sin phi * M.sin theta, r * M.cos phi)
  let rot : Vec3 := (M.atan2 (-pos.2.2) (M.sqrt (pos.1 ^ 2 + pos.2.1 ^ 2)),
                     0, M.atan2 pos.2.1 pos.1 + M.pi)
  let p := add_area_light pos rot energy (blackbody_to_rgb temp) (s1, s2)
    "RECTANGLE" w
  (p.1,
   .obj [("type", .str "area"),
         ("role", .str ("dramatic_" ++ toString (i + 1))),
         ("energy", .num energy), ("color_temperature", .num temp),
         ("position", .arr [.num pos.1, .num pos.2.1, .num pos.2.2]),
         ("rotation", .arr [.num rot.1, .num rot.2.1, .num rot.2.2]),
         ("size", .arr [.num s1, .num s2])],
   p.2)

/-- One iteration of the dramatic branch's loop: draws theta
`[0, 2pi]`, phi `[0, pi/2]`, radius `[2, 4]`, energy `[1000, 2000]`,
warm temperature `[2700, 3500]` and two size components `[0.5, 2]`, in
the source's order, then builds the light and its entry. -/
def dramaticStep (M : MathFns) (i : Nat) (w : World) :
    Light × JVal × World :=
  let (theta, w1) := uniform 0 (2 * M.pi) w
  let (phi, w2) := uniform 0 (M.pi / 2) w1
  let (r, w3) := uniform 2 4 w2
  let (energy, w4) := uniform 1000 2000 w3
  let (temp, w5) := uniform 2700 3500 w4
  let (s1, w6) := uniform (1/2) 2 w5
  let (s2, w7) := uniform (1/2) 2 w6
  dramaticIterFrom M theta phi r energy temp s1 s2 i w7

/-- The dramatic branch's `for i in range(num_lights)` loop. -/
def dramaticLoop (M : MathFns) : Nat → Nat → World →
    List Light × List JVal × World
  | 0, _, w => ([], [], w)
  | n + 1, i, w =>
    let q := dramaticStep M i w
    let rest := dramaticLoop M n (i + 1) q.2.2
    (q.1 :: rest.1, q.2.1 :: rest.2.1, rest.2.2)

/-- The dramatic branch (lighting.py:296): 1 or 2 lights via
`random.randint(1, 2)`. -/
def dramaticBranch (M : MathFns) (w : World) : List Light × Dict × World :=
  let (num_lights, w1) := randint 1 2 w
  let q := dramaticLoop M num_lights 0 w1
  (q.1,
   [("lighting_type", JVal.str "dramatic"), ("lights", JVal.arr q.2.1)],
   q.2.2)

/-- The natural branch (lighting.py:343): one sun light (elevation
`[-60, -30]` degrees, azimuth `[0, 360]` degrees, energy `[2, 5]`,
angle `[0.5, 5]` degrees, neutral band) plus one area fill light at a
box position (x, y in `[-3, 3]`, z in `[1, 3]`, energy `[200, 400]`,
cool band, sizes `[1, 3]`), draws in the source's order. -/
def naturalBranch (M : MathFns) (w : World) : List Light × Dict × World :=
  let (elev, w1) := uniform (-60) (-30) w
  let (azim, w2) := uniform 0 360 w1
  let sun_rot : Vec3 := (radians M elev, radians M azim, 0)
  let (sun_energy, w3) := uniform 2 5 w2
  let (sun_angle_deg, w4) := uniform (1/2) 5 w3
  let sun_angle := radians M sun_angle_deg
  let (sun_temp, w5) := uniform 4000 5500 w4
  let ps := add_sun_light sun_rot sun_energy (blackbody_to_rgb sun_temp)
    sun_angle w5
  let (px, w6) := uniform (-3) 3 ps.2
  let (py, w7) := uniform (-3) 3 w6
  let (pz, w8) := uniform 1 3 w7
  let (fill_energy, w9) := uniform 200 400 w8
  let (fill_temp, w10) := uniform 6000 7500 w9
  let (fs1, w11) := uniform 1 3 w10
  let (fs2, w12) := uniform 1 3 w11
  let pf := add_area_light (px, py, pz) (0, 0, 0) fill_energy
    (blackbody_to_rgb fill_temp) (fs1, fs2) "RECTANGLE" w12
  ([ps.1, pf.1],
   [("lighting_type", JVal.str "natural"),
    ("lights", JVal.arr
      [.obj [("type", .str "sun"), ("role", .str "main"),
             ("energy", .num sun_energy),
             ("color_temperature", .num sun_temp),
             ("rotation", .arr [.num (radians M elev),
                                .num (radians M azim), .num 0]),
             ("angle", .num sun_angle)],
       .obj [("type", .str "area"), ("role", .str "fill"),
             ("energy", .num fill_energy),
             ("color_temperature", .num fill_temp),
             ("position", .arr [.num px, .num py, .num pz]),
             ("size", .arr [.num fs1, .num fs2])]])],
   pf.2)

/-- One random-points iteration after its five uniform draws
(lighting.py:409-441): full-sphere spherical position, point light of
size 0.1; both the drawn temperature and its derived color are stored. -/
def randomIterFrom (M : MathFns) (theta phi r energy temp : ℚ) (i : Nat)
    (w : World) : Light × JVal × World :=
  let pos : Vec3 := (r * M.sin phi * M.cos theta,
                     r * M.sin phi * M.sin theta, r * M.cos phi)
  let color := blackbody_to_rgb temp
  let p := add_point_light pos energy color (1/10) w
  (p.1,
   .obj [("type", .str "point"),
         ("role", .str ("random_" ++ toString (i + 1))),
         ("energy", .num energy), ("color_temperature", .num temp),
         ("color", .arr [.num color.1, .num color.2.1, .num color.2.2]),
         ("position", .arr [.num pos.1, .num pos.2.1, .num pos.2.2]),
         ("size", .num (1/10))],
   p.2)

/-- One iteration of the random-points branch's loop: theta `[0, 2pi]`,
phi `[0, pi]`, radius `[2, 4]`, energy `[300, 800]`, neutral
temperature `[4000, 5500]`, in the source's order. -/
def randomStep (M : MathFns) (i : Nat) (w : World) :
    Light × JVal × World :=
  let (theta, w1) := uniform 0 (2 * M.pi) w
  let (phi, w2) := uniform 0 M.pi w1
  let (r, w3) := uniform 2 4 w2
  let (energy, w4) := uniform 300 800 w3
  let (temp, w5) := uniform 4000 5500 w4
  randomIterFrom M theta phi r energy temp i w5

/-- The random-points branch's `for i in range(num_lights)` loop. -/
def randomLoop (M : MathFns) : Nat → Nat → World →
    List Light × List JVal × World
  | 0, _, w => ([], [], w)
  | n + 1, i, w =>
    let q := randomStep M i w
    let rest := randomLoop M n (i + 1) q.2.2
    (q.1 :: rest.1, q.2.1 :: rest.2.1, rest.2.2)

/-- The random-points branch (lighting.py:399): 2 to 5 point lights via
`random.randint(2, 5)`. -/
def randomBranch (M : MathFns) (w : World) : List Light × Dict × World :=
  let (num_lights, w1) := randint 2 5 w
  let q := randomLoop M num_lights 0 w1
  (q.1,
   [("lighting_type", JVal.str "random"), ("lights", JVal.arr q.2.1)],
   q.2.2)

/-- The `if/elif` dispatch of `generate_random_lighting_setup` on the
(already validated or freshly sampled) lighting type, in the source's
branch order, the final `else` being the random-points branch. -/
def dispatchLighting (M : MathFns) (lighting_type : String) (w : World) :
    List Light × Dict × World :=
  if lighting_type = "env_map" then envBranch w
  else if lighting_type = "studio" then studioBranch M w
  else if lighting_type = "dramatic" then dramaticBranch M w
  else if lighting_type = "natural" then naturalBranch M w
  else randomBranch M w

/-- `generate_random_lighting_setup` (lighting.py:197): validates a
forced lighting type (ValueError on an unrecognized one; the source
message's quote characters are omitted) or samples one from the
weighted distribution, then runs the selected sampler. -/
def generate_random_lighting_setup (M : MathFns)
    (lighting_type : Option String) (w : World) :
    Except PyErr (List Light × Dict) × World :=
  match lighting_type with
  | some lt =>
    if lt ∈ lighting_type_names then
      let q := dispatchLighting M lt w
      (.ok (q.1, q.2.1), q.2.2)
    else
      (.error (.valueError ("Invalid lighting type: " ++ lt ++
        ". Must be one of " ++ String.intercalate ", " lighting_type_names)),
       w)
  | none =>
    let p := w.rng.nextU
    let lt := pickWeighted lighting_type_weights p.1
    let q := dispatchLighting M lt { w with rng := p.2 }
    (.ok (q.1, q.2.1), q.2.2)

/-- Python `f(d[k])`: a `KeyError` carrying the key when it is absent,
otherwise the conversion `f` applied to the value. -/
def getAs {α : Type} (f : JVal → Except PyErr α) (d : Dict) (k : String) :
    Except PyErr α :=
  match dictGet d k with
  | some v => f v
  | none => .error (.keyError k)

/-- A scalar record field: the arithmetic / assignment on a non-number
raises at the interpreter or materialization boundary. -/
def asNum : JVal → Except PyErr ℚ
  | .num q => .ok q
  | _ => .error .typeError

/-- `tuple(...)` of a 3-vector field: Blender's vector assignment
requires a length-3 numeric sequence and raises otherwise. -/
def asVec3 : JVal → Except PyErr Vec3
  | .arr [.num a, .num b, .num c] => .ok (a, b, c)
  | _ => .error .typeError

/-- `tuple(...)` of an area-size field: the two components
`size[0]`, `size[1]` must exist and be numeric. -/
def asVec2 : JVal → Except PyErr (ℚ × ℚ)
  | .arr [.num a, .num b] => .ok (a, b)
  | _ => .error .typeError

/-- Is this value one of the given strings (`v in ['a', 'b', ...]` on a
list of string literals)? -/
def isStrIn (v : JVal) (ss : List String) : Bool :=
  match v with
  | .str s => ss.contains s
  | _ => false

/-- Field accesses of the studio (and dramatic) reconstruction branch,
in the source's argument-evaluation order (lighting.py:484-490):
position, rotation, energy, color_temperature, size; the color is
always re-derived from the stored temperature. -/
def studioParams (d : Dict) :
    Except PyErr (Vec3 × Vec3 × ℚ × Vec3 × (ℚ × ℚ)) :=
  match getAs asVec3 d "position" with
  | .error er => .error er
  | .ok pos =>
    match getAs asVec3 d "rotation" with
    | .error er => .error er
    | .ok rot =>
      match getAs asNum d "energy" with
      | .error er => .error er
      | .ok energy =>
        match getAs asNum d "color_temperature" with
        | .error er => .error er
        | .ok ct =>
          match getAs asVec2 d "size" with
          | .error er => .error er
          | .ok size => .ok (pos, rot, energy, blackbody_to_rgb ct, size)

/-- Field accesses of the natural branch's sun case
(lighting.py:515-519): rotation, energy, color_temperature, angle. -/
def naturalSunParams (d : Dict) : Except PyErr (Vec3 × ℚ × Vec3 × ℚ) :=
  match getAs asVec3 d "rotation" with
  | .error er => .error er
  | .ok rot =>
    match getAs asNum d "energy" with
    | .error er => .error er
    | .ok energy =>
      match getAs asNum d "color_temperature" with
      | .error er => .error er
      | .ok ct =>
        match getAs asNum d "angle" with
        | .error er => .error er
        | .ok angle => .ok (rot, energy, blackbody_to_rgb ct, angle)

/-- Field accesses of the natural branch's area case
(lighting.py:523-527): position, energy, color_temperature, size. -/
def naturalAreaParams (d : Dict) :
    Except PyErr (Vec3 × ℚ × Vec3 × (ℚ × ℚ)) :=
  match getAs asVec3 d "position" with
  | .error er => .error er
  | .ok pos =>
    match getAs asNum d "energy" with
    | .error er => .error er
    | .ok energy =>
      match getAs asNum d "color_temperature" with
      | .error er => .error er
      | .ok ct =>
        match getAs asVec2 d "size" with
        | .error er => .error er
        | .ok size => .ok (pos, energy, blackbody_to_rgb ct, size)

/-- Field accesses of the random-points branch (lighting.py:537-541):
position, energy, stored color (used directly, not re-derived), size. -/
def randomParams (d : Dict) : Except PyErr (Vec3 × ℚ × Vec3 × ℚ) :=
  match getAs asVec3 d "position" with
  | .error er => .error er
  | .ok pos =>
    match getAs asNum d "energy" with
    | .error er => .error er
    | .ok energy =>
      match getAs asVec3 d "color" with
      | .error er => .error er
      | .ok color =>
        match getAs asNum d "size" with
        | .error er => .error er
        | .ok size => .ok (pos, energy, color, size)

/-- The studio reconstruction loop (lighting.py:480): `KeyError` when an
entry has no `role`; entries with an unrecognized role are skipped
silently; recognized entries are materialized as area lights. -/
def studioLoopD : List JVal → World → Except PyErr (List Light) × World
  | [], w => (.ok [], w)
  | e :: rest, w =>
    match e with
    | .obj d =>
      match dictGet d "role" with
      | none => (.error (.keyError "Studio light metadata must include role"), w)
      | some role =>
        if isStrIn role ["key", "fill", "back"] then
          match studioParams d with
          | .error er => (.error er, w)
          | .ok (pos, rot, energy, color, size) =>
            let p := add_area_light pos rot energy color size "RECTANGLE" w
            match studioLoopD rest p.2 with
            | (.ok ls, w2) => (.ok (p.1 :: ls), w2)
            | (.error er, w2) => (.error er, w2)
        else studioLoopD rest w
    | _ => (.error .typeError, w)

/-- The dramatic reconstruction loop (lighting.py:495): discriminant is
`type`; only `area` entries are materialized, others skipped. -/
def dramaticLoopD : List JVal → World → Except PyErr (List Light) × World
  | [], w => (.ok [], w)
  | e :: rest, w =>
    match e with
    | .obj d =>
      match dictGet d "type" with
      | none => (.error (.keyError "Dramatic light metadata must include type"), w)
      | some ty =>
        if isStrIn ty ["area"] then
          match studioParams d with
          | .error er => (.error er, w)
          | .ok (pos, rot, energy, color, size) =>
            let p := add_area_light pos rot energy color size "RECTANGLE" w
            match dramaticLoopD rest p.2 with
            | (.ok ls, w2) => (.ok (p.1 :: ls), w2)
            | (.error er, w2) => (.error er, w2)
        else dramaticLoopD rest w
    | _ => (.error .typeError, w)

/-- The natural reconstruction loop (lighting.py:511): `sun` entries
become sun lights, `area` entries become area lights with the default
rotation `(0, 0, 0)`, anything else is skipped. -/
def naturalLoopD : List JVal → World → Except PyErr (List Light) × World
  | [], w => (.ok [], w)
  | e :: rest, w =>
    match e with
    | .obj d =>
      match dictGet d "type" with
      | none => (.error (.keyError "Natural light metadata must include type"), w)
      | some ty =>
        if isStrIn ty ["sun"] then
          match naturalSunParams d with
          | .error er => (.error er, w)
          | .ok (rot, energy, color, angle) =>
            let p := add_sun_light rot energy color angle w
            match naturalLoopD rest p.2 with
            | (.ok ls, w2) => (.ok (p.1 :: ls), w2)
            | (.error er, w2) => (.error er, w2)
        else if isStrIn ty ["area"] then
          match naturalAreaParams d with
          | .error er => (.error er, w)
          | .ok (pos, energy, color, size) =>
            let p := add_area_light pos (0, 0, 0) energy color size
              "RECTANGLE" w
            match naturalLoopD rest p.2 with
            | (.ok ls, w2) => (.ok (p.1 :: ls), w2)
            | (.error er, w2) => (.error er, w2)
        else naturalLoopD rest w
    | _ => (.error .typeError, w)

/-- The random-points reconstruction loop (lighting.py:532): `point`
entries become point lights using the stored color, others skipped. -/
def randomLoopD : List JVal → World → Except PyErr (List Light) × World
  | [], w => (.ok [], w)
  | e :: rest, w =>
    match e with
    | .obj d =>
      match dictGet d "type" with
      | none => (.error (.keyError "Random light metadata must include type"), w)
      | some ty =>
        if isStrIn ty ["point"] then
          match randomParams d with
          | .error er => (.error er, w)
          | .ok (pos, energy, color, size) =>
            let p := add_point_light pos energy color size w
            match randomLoopD rest p.2 with
            | (.ok ls, w2) => (.ok (p.1 :: ls), w2)
            | (.error er, w2) => (.error er, w2)
        else randomLoopD rest w
    | _ => (.error .typeError, w)

/-- The valid lighting types in the decoder's order (lighting.py:464). -/
def decode_valid_types : List String :=
  ["env_map", "studio", "dramatic", "natural", "random"]

/-- `setup_lighting_from_metadata` (lighting.py:445): validates
`lighting_type` (ValueError when absent, ValueError when invalid),
returns no lights for `env_map`, requires a `lights` key for every
other type (KeyError), then runs the per-type reconstruction loop.
Quote characters of the source's messages are omitted; a non-string
`lighting_type` is invalid with the same ValueError kind. -/
def setup_lighting_from_metadata (metadata : Dict) (w : World) :
    Except PyErr (List Light) × World :=
  match dictGet metadata "lighting_type" with
  | none => (.error (.valueError "Metadata must include lighting_type"), w)
  | some lt =>
    match lt with
    | .str ltype =>
      if ltype ∈ decode_valid_types then
        if ltype = "env_map" then (.ok [], w)
        else if hasKey metadata "lights" then
          match dictGet metadata "lights" with
          | some (.arr entries) =>
            if ltype = "studio" then studioLoopD entries w
            else if ltype = "dramatic" then dramaticLoopD entries w
            else if ltype = "natural" then naturalLoopD entries w
            else randomLoopD entries w
          | _ => (.error .typeError, w)
        else
          (.error (.keyError ("Metadata for " ++ ltype ++
            " lighting must include lights array")), w)
      else
        (.error (.valueError ("Invalid lighting_type: " ++ ltype ++
          ". Must be one of " ++
          String.intercalate ", " decode_valid_types)), w)
    | _ => (.error (.valueError "Invalid lighting_type"), w)

/-- Modelled from the spec: the schema fields of one light record
(§3, §6 "Metadata persistence").  The source has no standalone decoded
setup type (its decoder returns materialized lights only), so the
record-level round-trip of §4.4 is stated against this model. -/
structure LightRec where
  ty : Option JVal
  role : Option JVal
  energy : Option JVal
  color_temperature : Option JVal
  color : Option JVal
  position : Option JVal
  rotation : Option JVal
  size : Option JVal
  angle : Option JVal

/-- Modelled from the spec: a decoded LightingSetup at the record level
(§3, §4.4): the archetype tag, the verbatim `env_map` fragment when
present, and the retained light records. -/
structure LightingSetupRec where
  lighting_type : String
  env : Option JVal
  lights : List LightRec

/-- Modelled from the spec: parse one light entry (§4.4): requires the
archetype's discriminant (`role` for Studio, `type` otherwise), skips
(`none`) entries whose discriminant value is unrecognized, and retains
every schema field that is present. -/
def parseLightRecSpec (archetype : String) (e : JVal) :
    Except PyErr (Option LightRec) :=
  match e with
  | .obj d =>
    let lr : LightRec :=
      ⟨dictGet d "type", dictGet d "role", dictGet d "energy",
       dictGet d "color_temperature", dictGet d "color",
       dictGet d "position", dictGet d "rotation", dictGet d "size",
       dictGet d "angle"⟩
    if archetype = "studio" then
      match dictGet d "role" with
      | none => .error (.keyError "role")
      | some r =>
        if isStrIn r ["key", "fill", "back"] then .ok (some lr)
        else .ok none
    else
      match dictGet d "type" with
      | none => .error (.keyError "type")
      | some t =>
        let recognized :=
          if archetype = "dramatic" then ["area"]
          else if archetype = "natural" then ["sun", "area"]
          else ["point"]
        if isStrIn t recognized then .ok (some lr) else .ok none
  | _ => .error .typeError

/-- Modelled from the spec: parse a lights list, dropping skipped
entries (§4.4 permissive-skip). -/
def parseLightsSpec (archetype : String) :
    List JVal → Except PyErr (List LightRec)
  | [] => .ok []
  | e :: rest =>
    match parseLightRecSpec archetype e with
    | .error er => .error er
    | .ok o =>
      match parseLightsSpec archetype rest with
      | .error er => .error er
      | .ok ls =>
        match o with
        | some lr => .ok (lr :: ls)
        | none => .ok ls

/-- Modelled from the spec: `decode(record) → setup` at the record
level (§4.4): MissingField when `lighting_type` is absent, InvalidEnum
when it is unrecognized, empty light list for EnvironmentOnly
(retaining the `env_map` fragment), MissingField when `lights` is
absent for the other archetypes. -/
def decodeSetupSpec (r : Dict) : Except PyErr LightingSetupRec :=
  match dictGet r "lighting_type" with
  | none => .error (.valueError "MissingField lighting_type")
  | some (.str lt) =>
    if lt ∈ decode_valid_types then
      if lt = "env_map" then .ok ⟨lt, dictGet r "env_map", []⟩
      else
        match dictGet r "lights" with
        | some (.arr es) =>
          match parseLightsSpec lt es with
          | .error er => .error er
          | .ok ls => .ok ⟨lt, none, ls⟩
        | some _ => .error .typeError
        | none => .error (.keyError "lights")
    else .error (.valueError "InvalidEnum")
  | some _ => .error (.valueError "InvalidEnum")

/-- A field of an encoded light record, emitted only when present. -/
def optField (k : String) : Option JVal → List (String × JVal)
  | none => []
  | some v => [(k, v)]

/-- Modelled from the spec: encode one light record as "its kind
discriminant and only the fields meaningful for that kind" (§4.4), in
the canonical key order every sampler of the source uses. -/
def encodeLightRecSpec (lr : LightRec) : JVal :=
  .obj (optField "type" lr.ty ++ optField "role" lr.role ++
    optField "energy" lr.energy ++
    optField "color_temperature" lr.color_temperature ++
    optField "color" lr.color ++ optField "position" lr.position ++
    optField "rotation" lr.rotation ++ optField "size" lr.size ++
    optField "angle" lr.angle)

/-- Modelled from the spec: `encode(setup) → record`, "a direct
structural projection of §3's data model into a nested key/value tree"
(§4.4), with the source's top-level key order (`lighting_type`, then
`lights`, then `env_map` when present). -/
def encodeSpec (s : LightingSetupRec) : Dict :=
  [("lighting_type", .str s.lighting_type),
   ("lights", .arr (s.lights.map encodeLightRecSpec))] ++
  (match s.env with
   | some v => [("env_map", v)]
   | none => [])

/-- `math.radians(0) = 0` under every interpretation of pi. -/
@[simp] theorem radians_zero (M : MathFns) : radians M 0 = 0 := by
  simp [radians]

/-- A draw of `random.uniform(a, b)` with `a ≤ b` and a valid random
source lies in the closed interval `[a, b]`. -/
theorem uniform_mem (a b : ℚ) (w : World) (hab : a ≤ b)
    (hv : w.rng.valid) : a ≤ (uniform a b w).1 ∧ (uniform a b w).1 ≤ b := by
  unfold uniform
  rcases w with ⟨sc, ⟨us, ns⟩⟩
  cases us with
  | nil =>
    simp only [Rng.nextU]
    constructor
    · simp
    · simpa using hab
  | cons u us =>
    have hu : 0 ≤ u ∧ u ≤ 1 := hv u (List.mem_cons_self u us)
    simp only [Rng.nextU]
    constructor
    · nlinarith [hu.1, hu.2]
    · nlinarith [hu.1, hu.2]

/-- `uniform` leaves the scene untouched. -/
@[simp] theorem uniform_scene (a b : ℚ) (w : World) :
    (uniform a b w).2.scene = w.scene := rfl

/-- `uniform` keeps the random source valid. -/
theorem uniform_valid (a b : ℚ) (w : World) (hv : w.rng.valid) :
    (uniform a b w).2.rng.valid := by
  rcases w with ⟨sc, ⟨us, ns⟩⟩
  cases us with
  | nil => exact hv
  | cons u us =>
    intro x hx
    exact hv x (List.mem_cons_of_mem u hx)

/-- A draw of `random.randint(lo, hi)` with `lo ≤ hi` lies in
`[lo, hi]`, for every random source. -/
theorem randint_mem (lo hi : Nat) (w : World) (h : lo ≤ hi) :
    lo ≤ (randint lo hi w).1 ∧ (randint lo hi w).1 ≤ hi := by
  have hfst : (randint lo hi w).1 = lo + w.rng.nextN.1 % (hi + 1 - lo) := rfl
  rw [hfst]
  have hm : (w.rng.nextN.1 % (hi + 1 - lo)) < hi + 1 - lo :=
    Nat.mod_lt _ (by omega)
  omega

/-- `randint` leaves the scene untouched. -/
@[simp] theorem randint_scene (lo hi : Nat) (w : World) :
    (randint lo hi w).2.scene = w.scene := rfl

/-- `randint` keeps the random source valid (it consumes only the
integer stream). -/
theorem randint_valid (lo hi : Nat) (w : World) (hv : w.rng.valid) :
    (randint lo hi w).2.rng.valid := by
  rcases w with ⟨sc, ⟨us, ns⟩⟩
  cases ns with
  | nil => exact hv
  | cons n ns => exact hv

/-- Decoding the record emitted by the studio sampler reconstructs
exactly the sampler's lights, in any world. -/
theorem studioBranch_rt (M : MathFns) (w w' : World) :
    (setup_lighting_from_metadata (studioBranch M w).2.1 w').1 =
      .ok (studioBranch M w).1 := by
  simp [studioBranch, setup_lighting_from_metadata, setup_studio_lighting,
    studioMetaEntry, studioLoopD, studioParams, getAs, dictGet, asVec3,
    asNum, asVec2, isStrIn, add_area_light, uniform, hasKey,
    decode_valid_types]

/-- Decoding the record emitted by the env_map sampler yields no
lights, in any world. -/
theorem envBranch_rt (w w' : World) :
    (setup_lighting_from_metadata (envBranch w).2.1 w').1 = .ok (envBranch w).1 := by
  simp [envBranch, setup_lighting_from_metadata, dictGet, uniform,
    decode_valid_types]

/-- Decoding the record emitted by the natural sampler reconstructs
exactly the sampler's two lights, in any world. -/
theorem naturalBranch_rt (M : MathFns) (w w' : World) :
    (setup_lighting_from_metadata (naturalBranch M w).2.1 w').1 =
      .ok (naturalBranch M w).1 := by
  simp [naturalBranch, setup_lighting_from_metadata, naturalLoopD,
    naturalSunParams, naturalAreaParams, getAs, dictGet, asVec3, asNum,
    asVec2, isStrIn, add_area_light, add_sun_light, uniform, hasKey,
    decode_valid_types]

/-- The dramatic generation loop's entries decode back to exactly the
loop's lights, in any world. -/
theorem dramaticLoopD_rt (M : MathFns) :
    ∀ (n i : Nat) (w w' : World),
      dramaticLoopD (dramaticLoop M n i w).2.1 w' =
        (.ok (dramaticLoop M n i w).1,
         { w' with scene := w'.scene ++ (dramaticLoop M n i w).1 }) := by
  intro n
  induction n with
  | zero => intro i w w'; simp [dramaticLoop, dramaticLoopD]
  | succ n ih =>
    intro i w w'
    simp only [dramaticLoop, dramaticStep, dramaticIterFrom, add_area_light]
    simp only [dramaticLoopD, dramaticIterFrom, studioParams, getAs,
      dictGet, asVec3, asNum, asVec2, isStrIn, add_area_light]
    simp [ih (i + 1), List.append_assoc]

/-- The random-points generation loop's entries decode back to exactly
the loop's lights, in any world. -/
theorem randomLoopD_rt (M : MathFns) :
    ∀ (n i : Nat) (w w' : World),
      randomLoopD (randomLoop M n i w).2.1 w' =
        (.ok (randomLoop M n i w).1,
         { w' with scene := w'.scene ++ (randomLoop M n i w).1 }) := by
  intro n
  induction n with
  | zero => intro i w w'; simp [randomLoop, randomLoopD]
  | succ n ih =>
    intro i w w'
    simp only [randomLoop, randomStep, randomIterFrom, add_point_light]
    simp only [randomLoopD, randomIterFrom, randomParams, getAs,
      dictGet, asVec3, asNum, isStrIn, add_point_light]
    simp [ih (i + 1), List.append_assoc]

/-- Decoding the record emitted by the dramatic sampler reconstructs
exactly the sampler's lights, in any world. -/
theorem dramaticBranch_rt (M : MathFns) (w w' : World) :
    (setup_lighting_from_metadata (dramaticBranch M w).2.1 w').1 =
      .ok (dramaticBranch M w).1 := by
  simp [dramaticBranch, setup_lighting_from_metadata, dictGet, hasKey,
    decode_valid_types, dramaticLoopD_rt, randint]

/-- Decoding the record emitted by the random-points sampler
reconstructs exactly the sampler's lights, in any world. -/
theorem randomBranch_rt (M : MathFns) (w w' : World) :
    (setup_lighting_from_metadata (randomBranch M w).2.1 w').1 =
      .ok (randomBranch M w).1 := by
  simp [randomBranch, setup_lighting_from_metadata, dictGet, hasKey,
    decode_valid_types, randomLoopD_rt, randint]

/-- Modelled from the spec: decode a record to a setup and re-encode it
(the composition whose identity on emitted records is the byte-for-byte
half of the round-trip law, §4.4). -/
def reencode (r : Dict) : Except PyErr Dict :=
  match decodeSetupSpec r with
  | .error er => .error er
  | .ok s => .ok (encodeSpec s)

/-- The studio record re-encodes to itself. -/
theorem studioBranch_spec_rt (M : MathFns) (w : World) :
    reencode (studioBranch M w).2.1 = .ok (studioBranch M w).2.1 := by
  simp [studioBranch, reencode, decodeSetupSpec, encodeSpec,
    parseLightsSpec, parseLightRecSpec, encodeLightRecSpec, optField,
    studioMetaEntry, dictGet, isStrIn, decode_valid_types, uniform,
    setup_studio_lighting, add_area_light]

/-- The env_map record re-encodes to itself. -/
theorem envBranch_spec_rt (w : World) :
    reencode (envBranch w).2.1 = .ok (envBranch w).2.1 := by
  simp [envBranch, reencode, decodeSetupSpec, encodeSpec, dictGet,
    decode_valid_types, uniform]

/-- The natural record re-encodes to itself. -/
theorem naturalBranch_spec_rt (M : MathFns) (w : World) :
    reencode (naturalBranch M w).2.1 = .ok (naturalBranch M w).2.1 := by
  simp [naturalBranch, reencode, decodeSetupSpec, encodeSpec,
    parseLightsSpec, parseLightRecSpec, encodeLightRecSpec, optField,
    dictGet, isStrIn, decode_valid_types, uniform, add_sun_light,
    add_area_light]

/-- Parsing a lights list whose head parses to a retained record and
whose tail re-encodes to itself re-encodes to the whole list. -/
theorem parseLightsSpec_cons_ok (a : String) (e : JVal) (lr : LightRec)
    (rest : List JVal)
    (he : parseLightRecSpec a e = .ok (some lr))
    (henc : encodeLightRecSpec lr = e)
    (hrest : (parseLightsSpec a rest).map (List.map encodeLightRecSpec) =
      .ok rest) :
    (parseLightsSpec a (e :: rest)).map (List.map encodeLightRecSpec) =
      .ok (e :: rest) := by
  rcases hp : parseLightsSpec a rest with er | ls
  · rw [hp] at hrest
    simp [Except.map] at hrest
  · rw [hp] at hrest
    simp only [Except.map] at hrest
    simp [parseLightsSpec, he, hp, Except.map, henc, Except.ok.inj hrest]

/-- The dramatic loop's entries parse to light records that re-encode
to exactly the same entries. -/
theorem dramaticLoop_spec_rt (M : MathFns) :
    ∀ (n i : Nat) (w : World),
      (parseLightsSpec "dramatic" (dramaticLoop M n i w).2.1).map
          (List.map encodeLightRecSpec) =
        .ok (dramaticLoop M n i w).2.1 := by
  intro n
  induction n with
  | zero => intro i w; simp [dramaticLoop, parseLightsSpec, Except.map]
  | succ n ih =>
    intro i w
    simp only [dramaticLoop]
    apply parseLightsSpec_cons_ok
    · simp only [dramaticStep, dramaticIterFrom, add_area_light]
      simp [parseLightRecSpec, dictGet, isStrIn]
      rfl
    · simp only [dramaticStep, dramaticIterFrom, add_area_light]
      simp [encodeLightRecSpec, optField]
    · exact ih (i + 1) (dramaticStep M i w).2.2

/-- The random-points loop's entries parse to light records that
re-encode to exactly the same entries. -/
theorem randomLoop_spec_rt (M : MathFns) :
    ∀ (n i : Nat) (w : World),
      (parseLightsSpec "random" (randomLoop M n i w).2.1).map
          (List.map encodeLightRecSpec) =
        .ok (randomLoop M n i w).2.1 := by
  intro n
  induction n with
  | zero => intro i w; simp [randomLoop, parseLightsSpec, Except.map]
  | succ n ih =>
    intro i w
    simp only [randomLoop]
    apply parseLightsSpec_cons_ok
    · simp only [randomStep, randomIterFrom, add_point_light]
      simp [parseLightRecSpec, dictGet, isStrIn]
      rfl
    · simp only [randomStep, randomIterFrom, add_point_light]
      simp [encodeLightRecSpec, optField]
    · exact ih (i + 1) (randomStep M i w).2.2

/-- Re-encoding identity for a non-env record built from a lights list
that re-encodes to itself. -/
theorem reencode_lights_record (lt : String) (es : List JVal)
    (hmem : lt ∈ decode_valid_types) (hne : lt ≠ "env_map")
    (hrest : (parseLightsSpec lt es).map (List.map encodeLightRecSpec) =
      .ok es) :
    reencode [("lighting_type", .str lt), ("lights", .arr es)] =
      .ok [("lighting_type", .str lt), ("lights", .arr es)] := by
  rcases hp : parseLightsSpec lt es with er | ls
  · rw [hp] at hrest
    simp [Except.map] at hrest
  · rw [hp] at hrest
    simp only [Except.map] at hrest
    simp [reencode, decodeSetupSpec, encodeSpec, dictGet, hmem, hne, hp,
      Except.ok.inj hrest]

/-- The dramatic record re-encodes to itself. -/
theorem dramaticBranch_spec_rt (M : MathFns) (w : World) :
    reencode (dramaticBranch M w).2.1 = .ok (dramaticBranch M w).2.1 := by
  simp only [dramaticBranch]
  exact reencode_lights_record _ _ (by simp [decode_valid_types]) (by simp)
    (dramaticLoop_spec_rt M (randint 1 2 w).1 0 (randint 1 2 w).2)

/-- The random-points record re-encodes to itself. -/
theorem randomBranch_spec_rt (M : MathFns) (w : World) :
    reencode (randomBranch M w).2.1 = .ok (randomBranch M w).2.1 := by
  simp only [randomBranch]
  exact reencode_lights_record _ _ (by simp [decode_valid_types]) (by simp)
    (randomLoop_spec_rt M (randint 2 5 w).1 0 (randint 2 5 w).2)

/-- Round-trip for the dispatched sampler of any lighting type, both
halves: decode reconstructs the lights, and the record re-encodes to
itself. -/
theorem dispatchLighting_rt (M : MathFns) (s : String) (w : World) :
    (∀ w₂, (setup_lighting_from_metadata (dispatchLighting M s w).2.1 w₂).1 =
      .ok (dispatchLighting M s w).1) ∧
    reencode (dispatchLighting M s w).2.1 = .ok (dispatchLighting M s w).2.1 := by
  by_cases h1 : s = "env_map"
  · simpa [dispatchLighting, h1] using
      ⟨fun w₂ => envBranch_rt w w₂, envBranch_spec_rt w⟩
  by_cases h2 : s = "studio"
  · simpa [dispatchLighting, h1, h2] using
      ⟨fun w₂ => studioBranch_rt M w w₂, studioBranch_spec_rt M w⟩
  by_cases h3 : s = "dramatic"
  · simpa [dispatchLighting, h1, h2, h3] using
      ⟨fun w₂ => dramaticBranch_rt M w w₂, dramaticBranch_spec_rt M w⟩
  by_cases h4 : s = "natural"
  · simpa [dispatchLighting, h1, h2, h3, h4] using
      ⟨fun w₂ => naturalBranch_rt M w w₂, naturalBranch_spec_rt M w⟩
  · simpa [dispatchLighting, h1, h2, h3, h4] using
      ⟨fun w₂ => randomBranch_rt M w w₂, randomBranch_spec_rt M w⟩

/-- The value component of `studioLoopD`, as a pure function of the
entries. -/
def studioPure : List JVal → Except PyErr (List Light)
  | [] => .ok []
  | e :: rest =>
    match e with
    | .obj d =>
      match dictGet d "role" with
      | none => .error (.keyError "Studio light metadata must include role")
      | some role =>
        if isStrIn role ["key", "fill", "back"] then
          match studioParams d with
          | .error er => .error er
          | .ok (pos, rot, energy, color, size) =>
            match studioPure rest with
            | .ok ls => .ok (Light.area pos rot energy color size.1
                (some size.2) "RECTANGLE" :: ls)
            | .error er => .error er
        else studioPure rest
    | _ => .error .typeError

/-- The lights `studioLoopD` materializes into the scene, including
those created before a failing entry. -/
def studioNew : List JVal → List Light
  | [] => []
  | e :: rest =>
    match e with
    | .obj d =>
      match dictGet d "role" with
      | none => []
      | some role =>
        if isStrIn role ["key", "fill", "back"] then
          match studioParams d with
          | .error _ => []
          | .ok (pos, rot, energy, color, size) =>
            Light.area pos rot energy color size.1 (some size.2)
              "RECTANGLE" :: studioNew rest
        else studioNew rest
    | _ => []

/-- `studioLoopD` computes `studioPure` and appends `studioNew` to the
scene, leaving the random source alone. -/
theorem studioLoopD_eq : ∀ (es : List JVal) (w : World),
    studioLoopD es w =
      (studioPure es, { w with scene := w.scene ++ studioNew es }) := by
  intro es
  induction es with
  | nil => intro w; simp [studioLoopD, studioPure, studioNew]
  | cons e rest ih =>
    intro w
    cases e with
    | obj d =>
      simp only [studioLoopD, studioPure, studioNew]
      rcases hrole : dictGet d "role" with _ | role
      · simp
      · by_cases hrec : isStrIn role ["key", "fill", "back"] = true
        · simp only [hrec, if_true]
          rcases hp : studioParams d with er | prm
          · simp
          · obtain ⟨pos, rot, energy, color, size⟩ := prm
            rcases hpr : studioPure rest with er | ls <;>
              simp [hpr, add_area_light, ih, List.append_assoc]
        · simp only [Bool.not_eq_true] at hrec
          simp [hrec, ih]
    | num q => simp [studioLoopD, studioPure, studioNew]
    | str t => simp [studioLoopD, studioPure, studioNew]
    | arr xs => simp [studioLoopD, studioPure, studioNew]

/-- The value component of `dramaticLoopD`, as a pure function of the
entries. -/
def dramaticPure : List JVal → Except PyErr (List Light)
  | [] => .ok []
  | e :: rest =>
    match e with
    | .obj d =>
      match dictGet d "type" with
      | none => .error (.keyError "Dramatic light metadata must include type")
      | some ty =>
        if isStrIn ty ["area"] then
          match studioParams d with
          | .error er => .error er
          | .ok (pos, rot, energy, color, size) =>
            match dramaticPure rest with
            | .ok ls => .ok (Light.area pos rot energy color size.1
                (some size.2) "RECTANGLE" :: ls)
            | .error er => .error er
        else dramaticPure rest
    | _ => .error .typeError

/-- The lights `dramaticLoopD` materializes into the scene. -/
def dramaticNew : List JVal → List Light
  | [] => []
  | e :: rest =>
    match e with
    | .obj d =>
      match dictGet d "type" with
      | none => []
      | some ty =>
        if isStrIn ty ["area"] then
          match studioParams d with
          | .error _ => []
          | .ok (pos, rot, energy, color, size) =>
            Light.area pos rot energy color size.1 (some size.2)
              "RECTANGLE" :: dramaticNew rest
        else dramaticNew rest
    | _ => []

/-- `dramaticLoopD` computes `dramaticPure` and appends `dramaticNew`
to the scene. -/
theorem dramaticLoopD_eq : ∀ (es : List JVal) (w : World),
    dramaticLoopD es w =
      (dramaticPure es, { w with scene := w.scene ++ dramaticNew es }) := by
  intro es
  induction es with
  | nil => intro w; simp [dramaticLoopD, dramaticPure, dramaticNew]
  | cons e rest ih =>
    intro w
    cases e with
    | obj d =>
      simp only [dramaticLoopD, dramaticPure, dramaticNew]
      rcases hty : dictGet d "type" with _ | ty
      · simp
      · by_cases hrec : isStrIn ty ["area"] = true
        · simp only [hrec, if_true]
          rcases hp : studioParams d with er | prm
          · simp
          · obtain ⟨pos, rot, energy, color, size⟩ := prm
            rcases hpr : dramaticPure rest with er | ls <;>
              simp [hpr, add_area_light, ih, List.append_assoc]
        · simp only [Bool.not_eq_true] at hrec
          simp [hrec, ih]
    | num q => simp [dramaticLoopD, dramaticPure, dramaticNew]
    | str t => simp [dramaticLoopD, dramaticPure, dramaticNew]
    | arr xs => simp [dramaticLoopD, dramaticPure, dramaticNew]

/-- The value component of `naturalLoopD`, as a pure function of the
entries. -/
def naturalPure : List JVal → Except PyErr (List Light)
  | [] => .ok []
  | e :: rest =>
    match e with
    | .obj d =>
      match dictGet d "type" with
      | none => .error (.keyError "Natural light metadata must include type")
      | some ty =>
        if isStrIn ty ["sun"] then
          match naturalSunParams d with
          | .error er => .error er
          | .ok (rot, energy, color, angle) =>
            match naturalPure rest with
            | .ok ls => .ok (Light.sun rot energy color angle :: ls)
            | .error er => .error er
        else if isStrIn ty ["area"] then
          match naturalAreaParams d with
          | .error er => .error er
          | .ok (pos, energy, color, size) =>
            match naturalPure rest with
            | .ok ls => .ok (Light.area pos (0, 0, 0) energy color size.1
                (some size.2) "RECTANGLE" :: ls)
            | .error er => .error er
        else naturalPure rest
    | _ => .error .typeError

/-- The lights `naturalLoopD` materializes into the scene. -/
def naturalNew : List JVal → List Light
  | [] => []
  | e :: rest =>
    match e with
    | .obj d =>
      match dictGet d "type" with
      | none => []
      | some ty =>
        if isStrIn ty ["sun"] then
          match naturalSunParams d with
          | .error _ => []
          | .ok (rot, energy, color, angle) =>
            Light.sun rot energy color angle :: naturalNew rest
        else if isStrIn ty ["area"] then
          match naturalAreaParams d with
          | .error _ => []
          | .ok (pos, energy, color, size) =>
            Light.area pos (0, 0, 0) energy color size.1 (some size.2)
              "RECTANGLE" :: naturalNew rest
        else naturalNew rest
    | _ => []

/-- `naturalLoopD` computes `naturalPure` and appends `naturalNew` to
the scene. -/
theorem naturalLoopD_eq : ∀ (es : List JVal) (w : World),
    naturalLoopD es w =
      (naturalPure es, { w with scene := w.scene ++ naturalNew es }) := by
  intro es
  induction es with
  | nil => intro w; simp [naturalLoopD, naturalPure, naturalNew]
  | cons e rest ih =>
    intro w
    cases e with
    | obj d =>
      simp only [naturalLoopD, naturalPure, naturalNew]
      rcases hty : dictGet d "type" with _ | ty
      · simp
      · by_cases hrec : isStrIn ty ["sun"] = true
        · simp only [hrec, if_true]
          rcases hp : naturalSunParams d with er | prm
          · simp
          · obtain ⟨rot, energy, color, angle⟩ := prm
            rcases hpr : naturalPure rest with er | ls <;>
              simp [hpr, add_sun_light, ih, List.append_assoc]
        · simp only [Bool.not_eq_true] at hrec
          by_cases hrec2 : isStrIn ty ["area"] = true
          · simp only [hrec, hrec2, if_true, Bool.false_eq_true, if_false]
            rcases hp : naturalAreaParams d with er | prm
            · simp
            · obtain ⟨pos, energy, color, size⟩ := prm
              rcases hpr : naturalPure rest with er | ls <;>
                simp [hpr, add_area_light, ih, List.append_assoc]
          · simp only [Bool.not_eq_true] at hrec2
            simp [hrec, hrec2, ih]
    | num q => simp [naturalLoopD, naturalPure, naturalNew]
    | str t => simp [naturalLoopD, naturalPure, naturalNew]
    | arr xs => simp [naturalLoopD, naturalPure, naturalNew]

/-- The value component of `randomLoopD`, as a pure function of the
entries. -/
def randomPure : List JVal → Except PyErr (List Light)
  | [] => .ok []
  | e :: rest =>
    match e with
    | .obj d =>
      match dictGet d "type" with
      | none => .error (.keyError "Random light metadata must include type")
      | some ty =>
        if isStrIn ty ["point"] then
          match randomParams d with
          | .error er => .error er
          | .ok (pos, energy, color, size) =>
            match randomPure rest with
            | .ok ls => .ok (Light.point pos energy color size :: ls)
            | .error er => .error er
        else randomPure rest
    | _ => .error .typeError

/-- The lights `randomLoopD` materializes into the scene. -/
def randomNew : List JVal → List Light
  | [] => []
  | e :: rest =>
    match e with
    | .obj d =>
      match dictGet d "type" with
      | none => []
      | some ty =>
        if isStrIn ty ["point"] then
          match randomParams d with
          | .error _ => []
          | .ok (pos, energy, color, size) =>
            Light.point pos energy color size :: randomNew rest
        else randomNew rest
    | _ => []

/-- `randomLoopD` computes `randomPure` and appends `randomNew` to the
scene. -/
theorem randomLoopD_eq : ∀ (es : List JVal) (w : World),
    randomLoopD es w =
      (randomPure es, { w with scene := w.scene ++ randomNew es }) := by
  intro es
  induction es with
  | nil => intro w; simp [randomLoopD, randomPure, randomNew]
  | cons e rest ih =>
    intro w
    cases e with
    | obj d =>
      simp only [randomLoopD, randomPure, randomNew]
      rcases hty : dictGet d "type" with _ | ty
      · simp
      · by_cases hrec : isStrIn ty ["point"] = true
        · simp only [hrec, if_true]
          rcases hp : randomParams d with er | prm
          · simp
          · obtain ⟨pos, energy, color, size⟩ := prm
            rcases hpr : randomPure rest with er | ls <;>
              simp [hpr, add_point_light, ih, List.append_assoc]
        · simp only [Bool.not_eq_true] at hrec
          simp [hrec, ih]
    | num q => simp [randomLoopD, randomPure, randomNew]
    | str t => simp [randomLoopD, randomPure, randomNew]
    | arr xs => simp [randomLoopD, randomPure, randomNew]

/-- The value component of `setup_lighting_from_metadata`, as a pure
function of the record. -/
def setupPure (metadata : Dict) : Except PyErr (List Light) :=
  match dictGet metadata "lighting_type" with
  | none => .error (.valueError "Metadata must include lighting_type")
  | some lt =>
    match lt with
    | .str ltype =>
      if ltype ∈ decode_valid_types then
        if ltype = "env_map" then .ok []
        else if hasKey metadata "lights" then
          match dictGet metadata "lights" with
          | some (.arr entries) =>
            if ltype = "studio" then studioPure entries
            else if ltype = "dramatic" then dramaticPure entries
            else if ltype = "natural" then naturalPure entries
            else randomPure entries
          | _ => .error .typeError
        else
          .error (.keyError ("Metadata for " ++ ltype ++
            " lighting must include lights array"))
      else
        .error (.valueError ("Invalid lighting_type: " ++ ltype ++
          ". Must be one of " ++
          String.intercalate ", " decode_valid_types))
    | _ => .error (.valueError "Invalid lighting_type")

/-- The lights `setup_lighting_from_metadata` materializes into the
scene, including those created before a failing entry. -/
def setupNew (metadata : Dict) : List Light :=
  match dictGet metadata "lighting_type" with
  | none => []
  | some lt =>
    match lt with
    | .str ltype =>
      if ltype ∈ decode_valid_types then
        if ltype = "env_map" then []
        else if hasKey metadata "lights" then
          match dictGet metadata "lights" with
          | some (.arr entries) =>
            if ltype = "studio" then studioNew entries
            else if ltype = "dramatic" then dramaticNew entries
            else if ltype = "natural" then naturalNew entries
            else randomNew entries
          | _ => []
        else []
      else []
    | _ => []

/-- `setup_lighting_from_metadata` computes `setupPure` and appends
`setupNew` to the scene, leaving the random source alone. -/
theorem setup_lighting_from_metadata_eq (metadata : Dict) (w : World) :
    setup_lighting_from_metadata metadata w =
      (setupPure metadata, { w with scene := w.scene ++ setupNew metadata }) := by
  unfold setup_lighting_from_metadata setupPure setupNew
  rcases hlt : dictGet metadata "lighting_type" with _ | lt
  · simp
  · cases lt with
    | str ltype =>
      by_cases h1 : ltype ∈ decode_valid_types
      · by_cases h2 : ltype = "env_map"
        · simp [decode_valid_types, h1, h2]
        · by_cases h3 : hasKey metadata "lights" = true
          · rcases hl : dictGet metadata "lights" with _ | lv
            · rw [hasKey, hl] at h3
              simp at h3
            · cases lv with
              | arr es =>
                by_cases h4 : ltype = "studio"
                · simp [decode_valid_types, h1, h2, h3, h4, studioLoopD_eq]
                · by_cases h5 : ltype = "dramatic"
                  · simp [decode_valid_types, h1, h2, h3, h4, h5,
                      dramaticLoopD_eq]
                  · by_cases h6 : ltype = "natural"
                    · simp [decode_valid_types, h1, h2, h3, h4, h5, h6,
                        naturalLoopD_eq]
                    · simp only [decode_valid_types, List.mem_cons,
                        List.mem_singleton, h2, h4, h5, h6, false_or,
                        List.not_mem_nil, or_false] at h1
                      simp [decode_valid_types, h1, h2, h3, h4, h5, h6,
                        randomLoopD_eq]
              | num q => simp [h1, h2, h3]
              | str t => simp [h1, h2, h3]
              | obj fs => simp [h1, h2, h3]
          · simp only [Bool.not_eq_true] at h3
            simp [h1, h2, h3]
      · simp [h1]
    | num q => simp
    | arr xs => simp
    | obj fs => simp

/-- A concrete interpretation of the math functions, used only to
instantiate universally quantified theorems at a concrete input. -/
def M0 : MathFns := ⟨3, fun _ => 0, fun _ => 1, fun _ => 0, fun _ _ => 0⟩

/-- The empty scene with exhausted random streams (every draw is 0). -/
def w0 : World := ⟨[], ⟨[], []⟩⟩

/-- A concrete studio generation run. -/
def gen0 : Except PyErr (List Light × Dict) × World :=
  generate_random_lighting_setup M0 (some "studio") w0

/-- The lights of the concrete studio run. -/
def gen0Lights : List Light :=
  match gen0.1 with
  | .ok (l, _) => l
  | .error _ => []

/-- The metadata record of the concrete studio run. -/
def gen0Meta : Dict :=
  match gen0.1 with
  | .ok (_, m) => m
  | .error _ => []

theorem gen0_eq : generate_random_lighting_setup M0 (some "studio") w0 =
    (.ok (gen0Lights, gen0Meta), gen0.2) := rfl

/-- C1: Round-trip law: for every setup produced by any of the five
archetype samplers of `generate_random_lighting_setup`, decoding its
emitted metadata record with `setup_lighting_from_metadata`
reconstructs exactly the setup's lights (all parameter fields equal),
and re-encoding the decoded setup (spec-modelled `reencode`, since the
source has no standalone encoder) yields a record identical to the
original record. -/
theorem C1_generate_roundtrip (M : MathFns) (lt : Option String)
    (w : World) (lights : List Light) (meta : Dict) (w₁ : World)
    (h : generate_random_lighting_setup M lt w = (.ok (lights, meta), w₁)) :
    (∀ w₂, (setup_lighting_from_metadata meta w₂).1 = .ok lights) ∧
    reencode meta = .ok meta := by
  rcases lt with _ | s
  · simp only [generate_random_lighting_setup, Prod.mk.injEq,
      Except.ok.injEq] at h
    obtain ⟨⟨hl, hm⟩, hw⟩ := h
    subst hl
    subst hm
    exact dispatchLighting_rt M _ _
  · by_cases hmem : s ∈ lighting_type_names
    · simp only [generate_random_lighting_setup, if_pos hmem,
        Prod.mk.injEq, Except.ok.injEq] at h
      obtain ⟨⟨hl, hm⟩, hw⟩ := h
      subst hl
      subst hm
      exact dispatchLighting_rt M _ _
    · simp only [generate_random_lighting_setup, if_neg hmem,
        Prod.mk.injEq] at h
      exact absurd h.1 (by simp)

theorem C1_generate_roundtrip_witness :
    (setup_lighting_from_metadata gen0Meta w0).1 = .ok gen0Lights ∧
    reencode gen0Meta = .ok gen0Meta :=
  ⟨(C1_generate_roundtrip M0 (some "studio") w0 gen0Lights gen0Meta
      gen0.2 gen0_eq).1 w0,
   (C1_generate_roundtrip M0 (some "studio") w0 gen0Lights gen0Meta
      gen0.2 gen0_eq).2⟩

/-- C9: Reconstruction determinism: `setup_lighting_from_metadata`
consumes no randomness and its resulting lights do not depend on the
ambient world, so two runs on equal records, in any two world states,
reconstruct identical lights, and the random source is returned
untouched. -/
theorem C9_reconstruction_deterministic (metadata : Dict) (w w' : World) :
    (setup_lighting_from_metadata metadata w).1 =
      (setup_lighting_from_metadata metadata w').1 ∧
    (setup_lighting_from_metadata metadata w).2.rng = w.rng := by
  simp [setup_lighting_from_metadata_eq]

/-- A studio light entry with full parameters (role key, energy 1000,
temperature 5000 K). -/
def c6good : JVal :=
  studioMetaEntry "key" 1000 5000 [4, -4, 4] [0, 0, 0] [2, 1]

/-- A studio record whose second entry has a recognized role but no
parameter fields at all. -/
def c6rec : Dict :=
  [("lighting_type", .str "studio"),
   ("lights", .arr [c6good, .obj [("role", .str "fill")]])]

/-- The world state after the failing decode of `c6rec`: the first
entry's light was already materialized. -/
def c6world : World :=
  ⟨[Light.area (4, -4, 4) (0, 0, 0) 1000 (1, 1, 22/25) 2 (some 1)
      "RECTANGLE"], ⟨[], []⟩⟩

theorem c6eval : setup_lighting_from_metadata c6rec w0 =
    (.error (.keyError "position"), c6world) := by
  have hbb : blackbody_to_rgb 5000 = (1, 1, 22/25) := by
    norm_num [blackbody_to_rgb]
  simp [c6rec, c6good, c6world, w0, setup_lighting_from_metadata,
    studioLoopD, studioParams, getAs, dictGet, asVec3, asNum, asVec2,
    isStrIn, add_area_light, hasKey, decode_valid_types,
    studioMetaEntry, hbb]

/-- C6, counterexample to "the scene state is unchanged on error":
decoding a studio record whose second entry lacks `position` fails with
a KeyError, yet the light materialized for the first entry remains in
the scene. -/
theorem C6_counterexample :
    (setup_lighting_from_metadata c6rec w0).1 =
      .error (.keyError "position") ∧
    (setup_lighting_from_metadata c6rec w0).2.scene ≠ w0.scene := by
  rw [c6eval]
  refine ⟨rfl, ?_⟩
  simp [c6world, w0]

/-- C6 (amended): a decode failure aborts the reconstruction — no light
list is returned — and the scene keeps its prior lights plus exactly
the lights materialized before the failure (`setupNew`); there is no
rollback.  The random source is untouched. -/
theorem C6_decode_abort (metadata : Dict) (w : World) (er : PyErr)
    (w₁ : World)
    (h : setup_lighting_from_metadata metadata w = (.error er, w₁)) :
    (∀ ls, (setup_lighting_from_metadata metadata w).1 ≠ .ok ls) ∧
    w₁.scene = w.scene ++ setupNew metadata ∧ w₁.rng = w.rng := by
  have he := setup_lighting_from_metadata_eq metadata w
  rw [h] at he
  have hp : w₁ = { w with scene := w.scene ++ setupNew metadata } :=
    congrArg Prod.snd he
  refine ⟨fun ls hls => ?_, by rw [hp], by rw [hp]⟩
  rw [h] at hls
  exact Except.noConfusion hls

theorem C6_decode_abort_witness :
    (setup_lighting_from_metadata c6rec w0).1 ≠ .ok [] ∧
    c6world.scene = w0.scene ++ setupNew c6rec ∧ c6world.rng = w0.rng :=
  ⟨(C6_decode_abort c6rec w0 (.keyError "position") c6world c6eval).1 [],
   (C6_decode_abort c6rec w0 (.keyError "position") c6world c6eval).2⟩

/-- C2, counterexample: the claim's spot value
`kelvinToRGB(4000) = (1.0, 1.0, 0.8)` is false on the code: the first
branch applies at `temperature ≤ 4000`, so the blue channel is
`0.4 + 0.6 * 1300/1300 = 1.0`, not `0.8`. -/
theorem C2_counterexample : blackbody_to_rgb 4000 ≠ (1, 1, 4/5) := by
  norm_num [blackbody_to_rgb, Prod.ext_iff]

/-- C2 (amended): `blackbody_to_rgb 2700 = (1, 0.7, 0.4)` and
`blackbody_to_rgb 6500 = (1, 1, 1)` exactly, but at 4000 the first
branch (which applies for `temperature ≤ 4000`) gives `(1, 1, 1)`, not
`(1, 1, 0.8)`; the first-branch rule holds for every `t ≤ 4000`. -/
theorem C2_blackbody_spots :
    blackbody_to_rgb 2700 = (1, 7/10, 2/5) ∧
    blackbody_to_rgb 4000 = (1, 1, 1) ∧
    blackbody_to_rgb 6500 = (1, 1, 1) ∧
    ∀ t : ℚ, t ≤ 4000 →
      blackbody_to_rgb t =
        (1, 7/10 + 3/10 * (t - 2700) / 1300,
         2/5 + 3/5 * (t - 2700) / 1300) :=
  ⟨by norm_num [blackbody_to_rgb], by norm_num [blackbody_to_rgb],
   by norm_num [blackbody_to_rgb],
   fun t ht => by simp [blackbody_to_rgb, ht]⟩

theorem C2_blackbody_spots_witness :
    blackbody_to_rgb 3350 =
      (1, 7/10 + 3/10 * (3350 - 2700) / 1300,
       2/5 + 3/5 * (3350 - 2700) / 1300) :=
  C2_blackbody_spots.2.2.2 3350 (by norm_num)

/-- C4, counterexample: decoding a record without `lighting_type` fails
with a ValueError — the same exception kind as the invalid-enum failure
— while the missing-`lights` failure is a KeyError; so the
missing-`lighting_type` failure is not of the claimed `MissingField`
(KeyError) kind. -/
theorem C4_counterexample :
    (setup_lighting_from_metadata [] w0).1 =
      .error (.valueError "Metadata must include lighting_type") ∧
    (setup_lighting_from_metadata [("lighting_type", JVal.str "bogus")] w0).1 =
      .error (.valueError ("Invalid lighting_type: bogus. Must be one of " ++
        String.intercalate ", " decode_valid_types)) ∧
    (setup_lighting_from_metadata [("lighting_type", JVal.str "studio")] w0).1 =
      .error (.keyError ("Metadata for studio lighting must include lights array")) ∧
    PyErr.valueError "Metadata must include lighting_type" ≠
      PyErr.keyError "Metadata for studio lighting must include lights array" := by
  refine ⟨?_, ?_, ?_, ?_⟩
  · simp [setup_lighting_from_metadata, dictGet]
  · simp [setup_lighting_from_metadata, dictGet, decode_valid_types]
  · simp [setup_lighting_from_metadata, dictGet, decode_valid_types, hasKey]
  · simp

/-- C4 (amended): decode fails with a ValueError naming
`lighting_type` when that key is absent — the same exception kind
(ValueError) as the invalid-enum failure, distinguished only by
message — and fails with a KeyError (the MissingField kind) when
`lights` is absent for a valid non-env_map type; KeyError and
ValueError are distinguishable kinds. -/
theorem C4_decode_validation (d : Dict) (w : World) :
    (dictGet d "lighting_type" = none →
      (setup_lighting_from_metadata d w).1 =
        .error (.valueError "Metadata must include lighting_type")) ∧
    (∀ s, dictGet d "lighting_type" = some (.str s) →
      s ∉ decode_valid_types →
      (setup_lighting_from_metadata d w).1 =
        .error (.valueError ("Invalid lighting_type: " ++ s ++
          ". Must be one of " ++
          String.intercalate ", " decode_valid_types))) ∧
    (∀ s, dictGet d "lighting_type" = some (.str s) →
      s ∈ decode_valid_types → s ≠ "env_map" → dictGet d "lights" = none →
      (setup_lighting_from_metadata d w).1 =
        .error (.keyError ("Metadata for " ++ s ++
          " lighting must include lights array"))) ∧
    (∀ m₁ m₂, PyErr.valueError m₁ ≠ PyErr.keyError m₂) := by
  refine ⟨fun h => ?_, fun s hs hmem => ?_, fun s hs hmem hne hl => ?_,
    fun m₁ m₂ => by simp⟩
  · simp [setup_lighting_from_metadata, h]
  · simp [setup_lighting_from_metadata, hs, hmem]
  · simp [setup_lighting_from_metadata, hs, hmem, hne, hasKey, hl]

theorem C4_decode_validation_witness :
    (setup_lighting_from_metadata [] w0).1 =
      .error (.valueError "Metadata must include lighting_type") ∧
    (setup_lighting_from_metadata [("lighting_type", JVal.str "weird")] w0).1 =
      .error (.valueError ("Invalid lighting_type: weird. Must be one of " ++
        String.intercalate ", " decode_valid_types)) ∧
    (setup_lighting_from_metadata [("lighting_type", JVal.str "natural")] w0).1 =
      .error (.keyError ("Metadata for natural lighting must include lights array")) :=
  ⟨(C4_decode_validation [] w0).1 rfl,
   (C4_decode_validation [("lighting_type", JVal.str "weird")] w0).2.1
     "weird" rfl (by simp [decode_valid_types]),
   (C4_decode_validation [("lighting_type", JVal.str "natural")] w0).2.2.1
     "natural" rfl (by simp [decode_valid_types]) (by simp) rfl⟩

/-- A record field of a light entry (`none` for a non-object entry). -/
def entryField (e : JVal) (k : String) : Option JVal :=
  match e with
  | .obj d => dictGet d k
  | _ => none

/-- The `role` fields of a record's light entries. -/
def metaRoles (m : Dict) : Option (List (Option JVal)) :=
  match dictGet m "lights" with
  | some (.arr es) => some (es.map (entryField · "role"))
  | _ => none

/-- The dramatic loop creates exactly `n` area lights. -/
theorem dramaticLoop_count (M : MathFns) :
    ∀ (n i : Nat) (w : World),
      (dramaticLoop M n i w).1.length = n ∧
      ∀ x ∈ (dramaticLoop M n i w).1, x.kindOf = "area" := by
  intro n
  induction n with
  | zero => intro i w; simp [dramaticLoop]
  | succ n ih =>
    intro i w
    obtain ⟨h1, h2⟩ := ih (i + 1) (dramaticStep M i w).2.2
    refine ⟨by simp [dramaticLoop, h1], ?_⟩
    intro x hx
    simp only [dramaticLoop, List.mem_cons] at hx
    rcases hx with hx | hx
    · subst hx
      simp [dramaticStep, dramaticIterFrom, add_area_light, Light.kindOf]
    · exact h2 x hx

/-- The random-points loop creates exactly `n` point lights. -/
theorem randomLoop_count (M : MathFns) :
    ∀ (n i : Nat) (w : World),
      (randomLoop M n i w).1.length = n ∧
      ∀ x ∈ (randomLoop M n i w).1, x.kindOf = "point" := by
  intro n
  induction n with
  | zero => intro i w; simp [randomLoop]
  | succ n ih =>
    intro i w
    obtain ⟨h1, h2⟩ := ih (i + 1) (randomStep M i w).2.2
    refine ⟨by simp [randomLoop, h1], ?_⟩
    intro x hx
    simp only [randomLoop, List.mem_cons] at hx
    rcases hx with hx | hx
    · subst hx
      simp [randomStep, randomIterFrom, add_point_light, Light.kindOf]
    · exact h2 x hx

/-- C7: Cardinality per archetype: for every random-source state,
`generate_random_lighting_setup` returns — Studio: exactly 3 area
lights with metadata roles key/fill/back; Dramatic: 1 or 2 area
lights; Natural: exactly one sun then one area light; RandomPoints: 2
to 5 point lights; EnvironmentOnly: no lights. -/
theorem C7_cardinality (M : MathFns) (w : World) :
    (∀ l m w₁, generate_random_lighting_setup M (some "studio") w =
        (.ok (l, m), w₁) →
      l.length = 3 ∧ (∀ x ∈ l, x.kindOf = "area") ∧
      metaRoles m = some [some (.str "key"), some (.str "fill"),
        some (.str "back")]) ∧
    (∀ l m w₁, generate_random_lighting_setup M (some "dramatic") w =
        (.ok (l, m), w₁) →
      (1 ≤ l.length ∧ l.length ≤ 2) ∧ ∀ x ∈ l, x.kindOf = "area") ∧
    (∀ l m w₁, generate_random_lighting_setup M (some "natural") w =
        (.ok (l, m), w₁) →
      l.map Light.kindOf = ["sun", "area"]) ∧
    (∀ l m w₁, generate_random_lighting_setup M (some "random") w =
        (.ok (l, m), w₁) →
      (2 ≤ l.length ∧ l.length ≤ 5) ∧ ∀ x ∈ l, x.kindOf = "point") ∧
    (∀ l m w₁, generate_random_lighting_setup M (some "env_map") w =
        (.ok (l, m), w₁) → l = []) := by
  refine ⟨fun l m w₁ h => ?_, fun l m w₁ h => ?_, fun l m w₁ h => ?_,
    fun l m w₁ h => ?_, fun l m w₁ h => ?_⟩
  · have hl : l = (studioBranch M w).1 ∧ m = (studioBranch M w).2.1 := by
      simp only [generate_random_lighting_setup, lighting_type_names,
        dispatchLighting, Prod.mk.injEq, Except.ok.injEq] at h
      simp only [List.mem_cons, String.reduceEq, List.not_mem_nil,
        or_false, or_true, true_or, if_true, reduceIte, Prod.mk.injEq,
        Except.ok.injEq] at h
      exact ⟨h.1.1.symm, h.1.2.symm⟩
    rw [hl.1, hl.2]
    refine ⟨?_, ?_, ?_⟩
    · simp [studioBranch, setup_studio_lighting, add_area_light]
    · intro x hx
      simp only [studioBranch, setup_studio_lighting, add_area_light] at hx
      simp only [List.mem_cons, List.not_mem_nil, or_false] at hx
      rcases hx with hx | hx | hx <;> subst hx <;> simp [Light.kindOf]
    · simp [studioBranch, metaRoles, dictGet, studioMetaEntry, entryField]
  · have hl : l = (dramaticBranch M w).1 := by
      simp only [generate_random_lighting_setup, lighting_type_names,
        dispatchLighting, Prod.mk.injEq, Except.ok.injEq] at h
      simp only [List.mem_cons, String.reduceEq, List.not_mem_nil,
        or_false, or_true, true_or, if_true, reduceIte, Prod.mk.injEq,
        Except.ok.injEq] at h
      exact h.1.1.symm
    rw [hl]
    have hc := dramaticLoop_count M (randint 1 2 w).1 0 (randint 1 2 w).2
    have hn := randint_mem 1 2 w (by norm_num)
    refine ⟨?_, ?_⟩
    · simp only [dramaticBranch]
      rw [hc.1]
      exact hn
    · intro x hx
      simp only [dramaticBranch] at hx
      exact hc.2 x hx
  · have hl : l = (naturalBranch M w).1 := by
      simp only [generate_random_lighting_setup, lighting_type_names,
        dispatchLighting, Prod.mk.injEq, Except.ok.injEq] at h
      simp only [List.mem_cons, String.reduceEq, List.not_mem_nil,
        or_false, or_true, true_or, if_true, reduceIte, Prod.mk.injEq,
        Except.ok.injEq] at h
      exact h.1.1.symm
    rw [hl]
    simp [naturalBranch, add_sun_light, add_area_light, Light.kindOf]
  · have hl : l = (randomBranch M w).1 := by
      simp only [generate_random_lighting_setup, lighting_type_names,
        dispatchLighting, Prod.mk.injEq, Except.ok.injEq] at h
      simp only [List.mem_cons, String.reduceEq, List.not_mem_nil,
        or_false, or_true, true_or, if_true, reduceIte, Prod.mk.injEq,
        Except.ok.injEq] at h
      exact h.1.1.symm
    rw [hl]
    have hc := randomLoop_count M (randint 2 5 w).1 0 (randint 2 5 w).2
    have hn := randint_mem 2 5 w (by norm_num)
    refine ⟨?_, ?_⟩
    · simp only [randomBranch]
      rw [hc.1]
      exact hn
    · intro x hx
      simp only [randomBranch] at hx
      exact hc.2 x hx
  · have hl : l = (envBranch w).1 := by
      simp only [generate_random_lighting_setup, lighting_type_names,
        dispatchLighting, Prod.mk.injEq, Except.ok.injEq] at h
      simp only [List.mem_cons, String.reduceEq, List.not_mem_nil,
        or_false, or_true, true_or, if_true, reduceIte, Prod.mk.injEq,
        Except.ok.injEq] at h
      exact h.1.1.symm
    rw [hl]
    simp [envBranch]

theorem C7_cardinality_witness :
    gen0Lights.length = 3 ∧ (∀ x ∈ gen0Lights, x.kindOf = "area") ∧
    metaRoles gen0Meta = some [some (.str "key"), some (.str "fill"),
      some (.str "back")] :=
  (C7_cardinality M0 w0).1 gen0Lights gen0Meta gen0.2 gen0_eq

/-- Successful random-branch field extraction returns the stored
`color` field verbatim. -/
theorem randomParams_color (d : Dict) (pos : Vec3) (en : ℚ) (col : Vec3)
    (sz : ℚ) (h : randomParams d = .ok (pos, en, col, sz)) :
    getAs asVec3 d "color" = .ok col := by
  unfold randomParams at h
  rcases h1 : getAs asVec3 d "position" with e1 | v1 <;> rw [h1] at h
  · exact absurd h (by simp)
  rcases h2 : getAs asNum d "energy" with e2 | v2 <;> rw [h2] at h
  · exact absurd h (by simp)
  rcases h3 : getAs asVec3 d "color" with e3 | v3 <;> rw [h3] at h
  · exact absurd h (by simp)
  rcases h4 : getAs asNum d "size" with e4 | v4 <;> rw [h4] at h
  · exact absurd h (by simp)
  simp only [Except.ok.injEq, Prod.mk.injEq] at h
  exact congrArg Except.ok h.2.2.1

/-- Successful studio-branch field extraction derives the color from
the stored `color_temperature` via `blackbody_to_rgb`. -/
theorem studioParams_color (d : Dict) (pos rot : Vec3) (en : ℚ)
    (col : Vec3) (sz : ℚ × ℚ)
    (h : studioParams d = .ok (pos, rot, en, col, sz)) :
    ∃ ct, getAs asNum d "color_temperature" = .ok ct ∧
      col = blackbody_to_rgb ct := by
  unfold studioParams at h
  rcases h1 : getAs asVec3 d "position" with e1 | v1 <;> rw [h1] at h
  · exact absurd h (by simp)
  rcases h2 : getAs asVec3 d "rotation" with e2 | v2 <;> rw [h2] at h
  · exact absurd h (by simp)
  rcases h3 : getAs asNum d "energy" with e3 | v3 <;> rw [h3] at h
  · exact absurd h (by simp)
  rcases h4 : getAs asNum d "color_temperature" with e4 | v4 <;> rw [h4] at h
  · exact absurd h (by simp)
  rcases h5 : getAs asVec2 d "size" with e5 | v5 <;> rw [h5] at h
  · exact absurd h (by simp)
  simp only [Except.ok.injEq, Prod.mk.injEq] at h
  exact ⟨v4, rfl, h.2.2.2.1.symm⟩

/-- The studio entry of the C3 counterexample: it stores an explicit
`color` field `(0.2, 0.3, 0.4)` alongside `color_temperature` 3000. -/
def c3dict : List (String × JVal) :=
  [("type", .str "area"), ("role", .str "key"), ("energy", .num 1000),
   ("color_temperature", .num 3000),
   ("color", .arr [.num (1/5), .num (3/10), .num (2/5)]),
   ("position", .arr [.num 4, .num (-4), .num 4]),
   ("rotation", .arr [.num 0, .num 0, .num 0]),
   ("size", .arr [.num 2, .num 1])]

/-- A studio record whose single entry carries a stored `color`. -/
def c3rec : Dict :=
  [("lighting_type", .str "studio"), ("lights", .arr [.obj c3dict])]

/-- C3, counterexample: decoding a studio entry that carries a stored
`color` field ignores it — the reconstructed light's color is
`blackbody_to_rgb 3000 = (1, 10/13, 7/13)`, not the stored
`(0.2, 0.3, 0.4)`. -/
theorem C3_counterexample :
    (setup_lighting_from_metadata c3rec w0).1 =
      .ok [Light.area (4, -4, 4) (0, 0, 0) 1000 (1, 10/13, 7/13) 2
        (some 1) "RECTANGLE"] ∧
    (1, 10/13, 7/13) ≠ ((1 : ℚ)/5, (3 : ℚ)/10, (2 : ℚ)/5) := by
  have hbb : blackbody_to_rgb 3000 = (1, 10/13, 7/13) := by
    norm_num [blackbody_to_rgb]
  constructor
  · simp [c3rec, c3dict, w0, setup_lighting_from_metadata, studioLoopD,
      studioParams, getAs, dictGet, asVec3, asNum, asVec2, isStrIn,
      add_area_light, hasKey, decode_valid_types, hbb]
  · norm_num [Prod.ext_iff]

/-- C3 (amended): only the RandomPoints branch uses a stored `color`,
and it does so unconditionally — the reconstructed point light's color
is the stored `color` field, and when that field is absent decode fails
with `KeyError color` instead of falling back to `color_temperature`;
the Studio branch (like Dramatic and Natural) always re-derives the
color from the stored `color_temperature`, ignoring any stored `color`
field. -/
theorem C3_color_reconstruction (d : List (String × JVal)) (w : World) :
    (∀ pos en col sz, dictGet d "type" = some (.str "point") →
      randomParams d = .ok (pos, en, col, sz) →
      (setup_lighting_from_metadata
        [("lighting_type", .str "random"), ("lights", .arr [.obj d])] w).1 =
        .ok [Light.point pos en col sz] ∧
      getAs asVec3 d "color" = .ok col) ∧
    (∀ pos en, getAs asVec3 d "position" = .ok pos →
      getAs asNum d "energy" = .ok en →
      dictGet d "type" = some (.str "point") → dictGet d "color" = none →
      (setup_lighting_from_metadata
        [("lighting_type", .str "random"), ("lights", .arr [.obj d])] w).1 =
        .error (.keyError "color")) ∧
    (∀ role pos rot en col sz, dictGet d "role" = some role →
      isStrIn role ["key", "fill", "back"] = true →
      studioParams d = .ok (pos, rot, en, col, sz) →
      (setup_lighting_from_metadata
        [("lighting_type", .str "studio"), ("lights", .arr [.obj d])] w).1 =
        .ok [Light.area pos rot en col sz.1 (some sz.2) "RECTANGLE"] ∧
      ∃ ct, getAs asNum d "color_temperature" = .ok ct ∧
        col = blackbody_to_rgb ct) := by
  refine ⟨fun pos en col sz hty hp => ⟨?_, randomParams_color d pos en col sz hp⟩,
    fun pos en hpos hen hty hcol => ?_,
    fun role pos rot en col sz hrole hrec hp =>
      ⟨?_, studioParams_color d pos rot en col sz hp⟩⟩
  · simp [setup_lighting_from_metadata, dictGet, hasKey,
      decode_valid_types, randomLoopD, hty, isStrIn, hp, add_point_light]
  · have hrp : randomParams d = .error (.keyError "color") := by
      unfold randomParams
      rw [hpos, hen]
      simp [getAs, hcol]
    simp [setup_lighting_from_metadata, dictGet, hasKey,
      decode_valid_types, randomLoopD, hty, isStrIn, hrp]
  · simp [setup_lighting_from_metadata, dictGet, hasKey,
      decode_valid_types, studioLoopD, hrole, hrec, hp, add_area_light]

/-- A complete point entry with a stored color differing from the
derived one. -/
def c3point : List (String × JVal) :=
  [("type", .str "point"), ("role", .str "random_1"),
   ("energy", .num 500), ("color_temperature", .num 5000),
   ("color", .arr [.num 1, .num (1/2), .num (1/4)]),
   ("position", .arr [.num 1, .num 2, .num 3]), ("size", .num (1/10))]

/-- A point entry with no stored color. -/
def c3pointNoColor : List (String × JVal) :=
  [("type", .str "point"), ("energy", .num 500),
   ("position", .arr [.num 1, .num 2, .num 3]), ("size", .num (1/10))]

theorem C3_color_reconstruction_witness :
    ((setup_lighting_from_metadata
        [("lighting_type", .str "random"),
         ("lights", .arr [.obj c3point])] w0).1 =
      .ok [Light.point (1, 2, 3) 500 (1, 1/2, 1/4) (1/10)] ∧
     getAs asVec3 c3point "color" = .ok (1, 1/2, 1/4)) ∧
    (setup_lighting_from_metadata
        [("lighting_type", .str "random"),
         ("lights", .arr [.obj c3pointNoColor])] w0).1 =
      .error (.keyError "color") :=
  ⟨(C3_color_reconstruction c3point w0).1 (1, 2, 3) 500 (1, 1/2, 1/4)
      (1/10) rfl
      (by simp [randomParams, getAs, dictGet, asVec3, asNum, c3point]),
   (C3_color_reconstruction c3pointNoColor w0).2.1 (1, 2, 3) 500
      (by simp [getAs, dictGet, asVec3, c3pointNoColor])
      (by simp [getAs, dictGet, asNum, c3pointNoColor]) rfl rfl⟩

/-- `d[k]` succeeding means the key is present. -/
theorem getAs_isSome {α : Type} (f : JVal → Except PyErr α) (d : Dict)
    (k : String) (v : α) (h : getAs f d k = .ok v) :
    (dictGet d k).isSome := by
  unfold getAs at h
  rcases hk : dictGet d k with _ | x
  · rw [hk] at h
    exact absurd h (by simp)
  · simp

/-- `d[k]` on an absent key raises `KeyError k`. -/
theorem getAs_none {α : Type} (f : JVal → Except PyErr α) (d : Dict)
    (k : String) (h : dictGet d k = none) :
    getAs f d k = .error (.keyError k) := by
  unfold getAs
  rw [h]

/-- A successful studio field extraction requires all five parameter
keys to be present. -/
theorem studioParams_keys (d : Dict)
    (prm : Vec3 × Vec3 × ℚ × Vec3 × (ℚ × ℚ))
    (h : studioParams d = .ok prm) :
    (dictGet d "position").isSome ∧ (dictGet d "rotation").isSome ∧
    (dictGet d "energy").isSome ∧ (dictGet d "color_temperature").isSome ∧
    (dictGet d "size").isSome := by
  unfold studioParams at h
  rcases h1 : getAs asVec3 d "position" with e1 | v1 <;> rw [h1] at h
  · exact absurd h (by simp)
  rcases h2 : getAs asVec3 d "rotation" with e2 | v2 <;> rw [h2] at h
  · exact absurd h (by simp)
  rcases h3 : getAs asNum d "energy" with e3 | v3 <;> rw [h3] at h
  · exact absurd h (by simp)
  rcases h4 : getAs asNum d "color_temperature" with e4 | v4 <;> rw [h4] at h
  · exact absurd h (by simp)
  rcases h5 : getAs asVec2 d "size" with e5 | v5 <;> rw [h5] at h
  · exact absurd h (by simp)
  exact ⟨getAs_isSome _ _ _ _ h1, getAs_isSome _ _ _ _ h2,
    getAs_isSome _ _ _ _ h3, getAs_isSome _ _ _ _ h4,
    getAs_isSome _ _ _ _ h5⟩

/-- C10: once an entry's discriminant is recognized, the parameter
fields are accessed unconditionally: a recognized studio entry with any
of its five parameter keys absent makes the whole decode fail (never a
skip or a default), with `KeyError position` when `position` — the
first-accessed field — is the absent one; likewise a natural `sun`
entry without `rotation` fails with `KeyError rotation` and a natural
`area` entry without `position` fails with `KeyError position`. -/
theorem C10_required_fields (d : List (String × JVal)) (w : World) :
    (∀ role, dictGet d "role" = some role →
      isStrIn role ["key", "fill", "back"] = true →
      (∃ k ∈ (["position", "rotation", "energy", "color_temperature",
        "size"] : List String), dictGet d k = none) →
      ∃ er, (setup_lighting_from_metadata
        [("lighting_type", .str "studio"),
         ("lights", .arr [.obj d])] w).1 = .error er) ∧
    (∀ role, dictGet d "role" = some role →
      isStrIn role ["key", "fill", "back"] = true →
      dictGet d "position" = none →
      (setup_lighting_from_metadata
        [("lighting_type", .str "studio"),
         ("lights", .arr [.obj d])] w).1 =
        .error (.keyError "position")) ∧
    (dictGet d "type" = some (.str "sun") → dictGet d "rotation" = none →
      (setup_lighting_from_metadata
        [("lighting_type", .str "natural"),
         ("lights", .arr [.obj d])] w).1 =
        .error (.keyError "rotation")) ∧
    (dictGet d "type" = some (.str "area") → dictGet d "position" = none →
      (setup_lighting_from_metadata
        [("lighting_type", .str "natural"),
         ("lights", .arr [.obj d])] w).1 =
        .error (.keyError "position")) := by
  refine ⟨fun role hrole hrec hmiss => ?_, fun role hrole hrec hmiss => ?_,
    fun hty hmiss => ?_, fun hty hmiss => ?_⟩
  · rcases hsp : studioParams d with er | prm
    · exact ⟨er, by simp [setup_lighting_from_metadata, dictGet, hasKey,
        decode_valid_types, studioLoopD, hrole, hrec, hsp]⟩
    · exfalso
      obtain ⟨k, hk, hnone⟩ := hmiss
      have keys := studioParams_keys d prm hsp
      simp only [List.mem_cons, List.not_mem_nil, or_false] at hk
      rcases hk with rfl | rfl | rfl | rfl | rfl <;>
        [rw [hnone] at keys; rw [hnone] at keys; rw [hnone] at keys;
         rw [hnone] at keys; rw [hnone] at keys] <;> simp at keys
  · have hsp : studioParams d = .error (.keyError "position") := by
      unfold studioParams
      rw [getAs_none asVec3 d "position" hmiss]
    simp [setup_lighting_from_metadata, dictGet, hasKey,
      decode_valid_types, studioLoopD, hrole, hrec, hsp]
  · have hsp : naturalSunParams d = .error (.keyError "rotation") := by
      unfold naturalSunParams
      rw [getAs_none asVec3 d "rotation" hmiss]
    simp [setup_lighting_from_metadata, dictGet, hasKey,
      decode_valid_types, naturalLoopD, hty, isStrIn, hsp]
  · have hsp : naturalAreaParams d = .error (.keyError "position") := by
      unfold naturalAreaParams
      rw [getAs_none asVec3 d "position" hmiss]
    simp [setup_lighting_from_metadata, dictGet, hasKey,
      decode_valid_types, naturalLoopD, hty, isStrIn, hsp]

theorem C10_required_fields_witness :
    (setup_lighting_from_metadata
      [("lighting_type", .str "studio"),
       ("lights", .arr [.obj [("role", .str "key")]])] w0).1 =
      .error (.keyError "position") ∧
    (setup_lighting_from_metadata
      [("lighting_type", .str "natural"),
       ("lights", .arr [.obj [("type", .str "sun")]])] w0).1 =
      .error (.keyError "rotation") ∧
    (setup_lighting_from_metadata
      [("lighting_type", .str "natural"),
       ("lights", .arr [.obj [("type", .str "area")]])] w0).1 =
      .error (.keyError "position") :=
  ⟨(C10_required_fields [("role", .str "key")] w0).2.1 (.str "key") rfl
     (by simp [isStrIn]) rfl,
   (C10_required_fields [("type", .str "sun")] w0).2.2.1 rfl rfl,
   (C10_required_fields [("type", .str "area")] w0).2.2.2 rfl rfl⟩

/-- Removing a studio entry whose `role` is present but unrecognized
changes neither the decoded lights nor the materialized ones. -/
theorem studioSkip (d : List (String × JVal)) (role : JVal)
    (hrole : dictGet d "role" = some role)
    (hrec : isStrIn role ["key", "fill", "back"] = false) :
    ∀ (pre suf : List JVal),
      studioPure (pre ++ JVal.obj d :: suf) = studioPure (pre ++ suf) ∧
      studioNew (pre ++ JVal.obj d :: suf) = studioNew (pre ++ suf) := by
  intro pre
  induction pre with
  | nil =>
    intro suf
    constructor <;> simp [studioPure, studioNew, hrole, hrec]
  | cons p pre ih =>
    intro suf
    obtain ⟨ih1, ih2⟩ := ih suf
    cases p with
    | obj d' =>
      simp only [List.cons_append, studioPure, studioNew]
      rcases h1 : dictGet d' "role" with _ | role'
      · simp
      · by_cases h2 : isStrIn role' ["key", "fill", "back"] = true
        · simp only [h2, if_true]
          rcases h3 : studioParams d' with er | prm
          · simp
          · obtain ⟨pos, rot, en, col, sz⟩ := prm
            simp [ih1, ih2]
        · simp only [Bool.not_eq_true] at h2
          simp [h2, ih1, ih2]
    | num q => simp [studioPure, studioNew]
    | str t => simp [studioPure, studioNew]
    | arr xs => simp [studioPure, studioNew]

/-- Removing a dramatic entry whose `type` is present but not `area`
changes neither the decoded lights nor the materialized ones. -/
theorem dramaticSkip (d : List (String × JVal)) (ty : JVal)
    (hty : dictGet d "type" = some ty)
    (hrec : isStrIn ty ["area"] = false) :
    ∀ (pre suf : List JVal),
      dramaticPure (pre ++ JVal.obj d :: suf) = dramaticPure (pre ++ suf) ∧
      dramaticNew (pre ++ JVal.obj d :: suf) = dramaticNew (pre ++ suf) := by
  intro pre
  induction pre with
  | nil =>
    intro suf
    constructor <;> simp [dramaticPure, dramaticNew, hty, hrec]
  | cons p pre ih =>
    intro suf
    obtain ⟨ih1, ih2⟩ := ih suf
    cases p with
    | obj d' =>
      simp only [List.cons_append, dramaticPure, dramaticNew]
      rcases h1 : dictGet d' "type" with _ | ty'
      · simp
      · by_cases h2 : isStrIn ty' ["area"] = true
        · simp only [h2, if_true]
          rcases h3 : studioParams d' with er | prm
          · simp
          · obtain ⟨pos, rot, en, col, sz⟩ := prm
            simp [ih1, ih2]
        · simp only [Bool.not_eq_true] at h2
          simp [h2, ih1, ih2]
    | num q => simp [dramaticPure, dramaticNew]
    | str t => simp [dramaticPure, dramaticNew]
    | arr xs => simp [dramaticPure, dramaticNew]

/-- Removing a natural entry whose `type` is present but neither `sun`
nor `area` changes neither the decoded lights nor the materialized
ones. -/
theorem naturalSkip (d : List (String × JVal)) (ty : JVal)
    (hty : dictGet d "type" = some ty)
    (hrec1 : isStrIn ty ["sun"] = false)
    (hrec2 : isStrIn ty ["area"] = false) :
    ∀ (pre suf : List JVal),
      naturalPure (pre ++ JVal.obj d :: suf) = naturalPure (pre ++ suf) ∧
      naturalNew (pre ++ JVal.obj d :: suf) = naturalNew (pre ++ suf) := by
  intro pre
  induction pre with
  | nil =>
    intro suf
    constructor <;> simp [naturalPure, naturalNew, hty, hrec1, hrec2]
  | cons p pre ih =>
    intro suf
    obtain ⟨ih1, ih2⟩ := ih suf
    cases p with
    | obj d' =>
      simp only [List.cons_append, naturalPure, naturalNew]
      rcases h1 : dictGet d' "type" with _ | ty'
      · simp
      · by_cases h2 : isStrIn ty' ["sun"] = true
        · simp only [h2, if_true]
          rcases h3 : naturalSunParams d' with er | prm
          · simp
          · obtain ⟨rot, en, col, ang⟩ := prm
            simp [ih1, ih2]
        · simp only [Bool.not_eq_true] at h2
          by_cases h4 : isStrIn ty' ["area"] = true
          · simp only [h2, h4, if_true, Bool.false_eq_true, if_false]
            rcases h3 : naturalAreaParams d' with er | prm
            · simp
            · obtain ⟨pos, en, col, sz⟩ := prm
              simp [ih1, ih2]
          · simp only [Bool.not_eq_true] at h4
            simp [h2, h4, ih1, ih2]
    | num q => simp [naturalPure, naturalNew]
    | str t => simp [naturalPure, naturalNew]
    | arr xs => simp [naturalPure, naturalNew]

/-- Removing a random-points entry whose `type` is present but not
`point` changes neither the decoded lights nor the materialized ones. -/
theorem randomSkip (d : List (String × JVal)) (ty : JVal)
    (hty : dictGet d "type" = some ty)
    (hrec : isStrIn ty ["point"] = false) :
    ∀ (pre suf : List JVal),
      randomPure (pre ++ JVal.obj d :: suf) = randomPure (pre ++ suf) ∧
      randomNew (pre ++ JVal.obj d :: suf) = randomNew (pre ++ suf) := by
  intro pre
  induction pre with
  | nil =>
    intro suf
    constructor <;> simp [randomPure, randomNew, hty, hrec]
  | cons p pre ih =>
    intro suf
    obtain ⟨ih1, ih2⟩ := ih suf
    cases p with
    | obj d' =>
      simp only [List.cons_append, randomPure, randomNew]
      rcases h1 : dictGet d' "type" with _ | ty'
      · simp
      · by_cases h2 : isStrIn ty' ["point"] = true
        · simp only [h2, if_true]
          rcases h3 : randomParams d' with er | prm
          · simp
          · obtain ⟨pos, en, col, sz⟩ := prm
            simp [ih1, ih2]
        · simp only [Bool.not_eq_true] at h2
          simp [h2, ih1, ih2]
    | num q => simp [randomPure, randomNew]
    | str t => simp [randomPure, randomNew]
    | arr xs => simp [randomPure, randomNew]

/-- A studio record with complete key and back entries and one entry
with the unrecognized role "unknown". -/
def c5rec : Dict :=
  [("lighting_type", .str "studio"),
   ("lights", .arr
     [studioMetaEntry "key" 1000 5000 [4, -4, 4] [0, 0, 0] [2, 1],
      .obj [("role", .str "unknown")],
      studioMetaEntry "back" 600 3000 [0, 4, 3] [0, 0, 0] [2, 1/2]])]

/-- C5: Permissive-skip asymmetry: decode fails with a KeyError when an
entry's discriminant key (`role` for studio, `type` for
dramatic/natural/random) is absent, but an entry whose discriminant is
present with an unrecognized value is silently omitted — removing it
changes nothing, neither result nor scene; in particular a studio
record whose three entries include one with role "unknown" decodes to
exactly 2 lights with no error. -/
theorem C5_permissive_skip (d : List (String × JVal)) (w : World) :
    (∀ role pre suf, dictGet d "role" = some role →
      isStrIn role ["key", "fill", "back"] = false →
      setup_lighting_from_metadata [("lighting_type", .str "studio"),
        ("lights", .arr (pre ++ JVal.obj d :: suf))] w =
      setup_lighting_from_metadata [("lighting_type", .str "studio"),
        ("lights", .arr (pre ++ suf))] w) ∧
    (∀ ty pre suf, dictGet d "type" = some ty →
      isStrIn ty ["area"] = false →
      setup_lighting_from_metadata [("lighting_type", .str "dramatic"),
        ("lights", .arr (pre ++ JVal.obj d :: suf))] w =
      setup_lighting_from_metadata [("lighting_type", .str "dramatic"),
        ("lights", .arr (pre ++ suf))] w) ∧
    (∀ ty pre suf, dictGet d "type" = some ty →
      isStrIn ty ["sun"] = false → isStrIn ty ["area"] = false →
      setup_lighting_from_metadata [("lighting_type", .str "natural"),
        ("lights", .arr (pre ++ JVal.obj d :: suf))] w =
      setup_lighting_from_metadata [("lighting_type", .str "natural"),
        ("lights", .arr (pre ++ suf))] w) ∧
    (∀ ty pre suf, dictGet d "type" = some ty →
      isStrIn ty ["point"] = false →
      setup_lighting_from_metadata [("lighting_type", .str "random"),
        ("lights", .arr (pre ++ JVal.obj d :: suf))] w =
      setup_lighting_from_metadata [("lighting_type", .str "random"),
        ("lights", .arr (pre ++ suf))] w) ∧
    (∀ suf, dictGet d "role" = none →
      (setup_lighting_from_metadata [("lighting_type", .str "studio"),
        ("lights", .arr (JVal.obj d :: suf))] w).1 =
      .error (.keyError "Studio light metadata must include role")) ∧
    (∀ suf, dictGet d "type" = none →
      (setup_lighting_from_metadata [("lighting_type", .str "dramatic"),
        ("lights", .arr (JVal.obj d :: suf))] w).1 =
      .error (.keyError "Dramatic light metadata must include type")) ∧
    (∀ suf, dictGet d "type" = none →
      (setup_lighting_from_metadata [("lighting_type", .str "natural"),
        ("lights", .arr (JVal.obj d :: suf))] w).1 =
      .error (.keyError "Natural light metadata must include type")) ∧
    (∀ suf, dictGet d "type" = none →
      (setup_lighting_from_metadata [("lighting_type", .str "random"),
        ("lights", .arr (JVal.obj d :: suf))] w).1 =
      .error (.keyError "Random light metadata must include type")) ∧
    (setup_lighting_from_metadata c5rec w).1 =
      .ok [Light.area (4, -4, 4) (0, 0, 0) 1000 (1, 1, 22/25) 2 (some 1)
             "RECTANGLE",
           Light.area (0, 4, 3) (0, 0, 0) 600 (1, 10/13, 7/13) 2
             (some (1/2)) "RECTANGLE"] := by
  have hbb1 : blackbody_to_rgb 5000 = (1, 1, 22/25) := by
    norm_num [blackbody_to_rgb]
  have hbb2 : blackbody_to_rgb 3000 = (1, 10/13, 7/13) := by
    norm_num [blackbody_to_rgb]
  refine ⟨fun role pre suf hrole hrec => ?_,
    fun ty pre suf hty hrec => ?_,
    fun ty pre suf hty hrec1 hrec2 => ?_,
    fun ty pre suf hty hrec => ?_,
    fun suf hnone => ?_, fun suf hnone => ?_, fun suf hnone => ?_,
    fun suf hnone => ?_, ?_⟩
  · simp [setup_lighting_from_metadata_eq, setupPure, setupNew, dictGet,
      hasKey, decode_valid_types,
      (studioSkip d role hrole hrec pre suf).1,
      (studioSkip d role hrole hrec pre suf).2]
  · simp [setup_lighting_from_metadata_eq, setupPure, setupNew, dictGet,
      hasKey, decode_valid_types,
      (dramaticSkip d ty hty hrec pre suf).1,
      (dramaticSkip d ty hty hrec pre suf).2]
  · simp [setup_lighting_from_metadata_eq, setupPure, setupNew, dictGet,
      hasKey, decode_valid_types,
      (naturalSkip d ty hty hrec1 hrec2 pre suf).1,
      (naturalSkip d ty hty hrec1 hrec2 pre suf).2]
  · simp [setup_lighting_from_metadata_eq, setupPure, setupNew, dictGet,
      hasKey, decode_valid_types,
      (randomSkip d ty hty hrec pre suf).1,
      (randomSkip d ty hty hrec pre suf).2]
  · simp [setup_lighting_from_metadata, dictGet, hasKey,
      decode_valid_types, studioLoopD, hnone]
  · simp [setup_lighting_from_metadata, dictGet, hasKey,
      decode_valid_types, dramaticLoopD, hnone]
  · simp [setup_lighting_from_metadata, dictGet, hasKey,
      decode_valid_types, naturalLoopD, hnone]
  · simp [setup_lighting_from_metadata, dictGet, hasKey,
      decode_valid_types, randomLoopD, hnone]
  · simp [c5rec, setup_lighting_from_metadata, dictGet, hasKey,
      decode_valid_types, studioLoopD, studioParams, getAs, asVec3,
      asNum, asVec2, isStrIn, add_area_light, studioMetaEntry, hbb1,
      hbb2]

theorem C5_permissive_skip_witness :
    setup_lighting_from_metadata [("lighting_type", JVal.str "studio"),
      ("lights", .arr [.obj [("role", .str "unknown")]])] w0 =
      setup_lighting_from_metadata [("lighting_type", JVal.str "studio"),
        ("lights", .arr [])] w0 ∧
    setup_lighting_from_metadata [("lighting_type", JVal.str "dramatic"),
      ("lights", .arr [.obj [("type", .str "point")]])] w0 =
      setup_lighting_from_metadata [("lighting_type", JVal.str "dramatic"),
        ("lights", .arr [])] w0 ∧
    setup_lighting_from_metadata [("lighting_type", JVal.str "natural"),
      ("lights", .arr [.obj [("type", .str "point")]])] w0 =
      setup_lighting_from_metadata [("lighting_type", JVal.str "natural"),
        ("lights", .arr [])] w0 ∧
    setup_lighting_from_metadata [("lighting_type", JVal.str "random"),
      ("lights", .arr [.obj [("type", .str "area")]])] w0 =
      setup_lighting_from_metadata [("lighting_type", JVal.str "random"),
        ("lights", .arr [])] w0 ∧
    (setup_lighting_from_metadata [("lighting_type", JVal.str "studio"),
      ("lights", .arr [.obj []])] w0).1 =
      .error (.keyError "Studio light metadata must include role") ∧
    (setup_lighting_from_metadata [("lighting_type", JVal.str "random"),
      ("lights", .arr [.obj []])] w0).1 =
      .error (.keyError "Random light metadata must include type") :=
  ⟨(C5_permissive_skip [("role", .str "unknown")] w0).1 (.str "unknown")
     [] [] rfl (by simp [isStrIn]),
   (C5_permissive_skip [("type", .str "point")] w0).2.1 (.str "point")
     [] [] rfl (by simp [isStrIn]),
   (C5_permissive_skip [("type", .str "point")] w0).2.2.1 (.str "point")
     [] [] rfl (by simp [isStrIn]) (by simp [isStrIn]),
   (C5_permissive_skip [("type", .str "area")] w0).2.2.2.1 (.str "area")
     [] [] rfl (by simp [isStrIn]),
   (C5_permissive_skip [] w0).2.2.2.2.1 [] rfl,
   (C5_permissive_skip [] w0).2.2.2.2.2.2.2.1 [] rfl⟩

/-- The light entries of a record. -/
def lightsOf (m : Dict) : List JVal :=
  match dictGet m "lights" with
  | some (.arr es) => es
  | _ => []

/-- The numeric fields of one dramatic step's entry come from in-bound
draws, and the step keeps the random source valid. -/
theorem dramaticStep_bounds (M : MathFns) (hpi : 0 ≤ M.pi) (i : Nat)
    (w : World) (hv : w.rng.valid) :
    (∃ theta phi r energy temp s1 s2 : ℚ,
      0 ≤ theta ∧ theta ≤ 2 * M.pi ∧ 0 ≤ phi ∧ phi ≤ M.pi / 2 ∧
      2 ≤ r ∧ r ≤ 4 ∧ 1000 ≤ energy ∧ energy ≤ 2000 ∧
      2700 ≤ temp ∧ temp ≤ 3500 ∧ 1/2 ≤ s1 ∧ s1 ≤ 2 ∧
      1/2 ≤ s2 ∧ s2 ≤ 2 ∧
      entryField (dramaticStep M i w).2.1 "energy" = some (.num energy) ∧
      entryField (dramaticStep M i w).2.1 "color_temperature" =
        some (.num temp) ∧
      entryField (dramaticStep M i w).2.1 "size" =
        some (.arr [.num s1, .num s2]) ∧
      entryField (dramaticStep M i w).2.1 "position" =
        some (.arr [.num (r * M.sin phi * M.cos theta),
                    .num (r * M.sin phi * M.sin theta),
                    .num (r * M.cos phi)])) ∧
    (dramaticStep M i w).2.2.rng.valid := by
  have b1 := uniform_mem 0 (2 * M.pi) w (by linarith) hv
  have v1 := uniform_valid 0 (2 * M.pi) w hv
  have b2 := uniform_mem 0 (M.pi / 2) (uniform 0 (2 * M.pi) w).2
    (by linarith) v1
  have v2 := uniform_valid 0 (M.pi / 2) (uniform 0 (2 * M.pi) w).2 v1
  set w2 := (uniform 0 (M.pi / 2) (uniform 0 (2 * M.pi) w).2).2 with hw2
  have b3 := uniform_mem 2 4 w2 (by norm_num) v2
  have v3 := uniform_valid 2 4 w2 v2
  set w3 := (uniform 2 4 w2).2 with hw3
  have b4 := uniform_mem 1000 2000 w3 (by norm_num) v3
  have v4 := uniform_valid 1000 2000 w3 v3
  set w4 := (uniform 1000 2000 w3).2 with hw4
  have b5 := uniform_mem 2700 3500 w4 (by norm_num) v4
  have v5 := uniform_valid 2700 3500 w4 v4
  set w5 := (uniform 2700 3500 w4).2 with hw5
  have b6 := uniform_mem (1/2) 2 w5 (by norm_num) v5
  have v6 := uniform_valid (1/2) 2 w5 v5
  set w6 := (uniform (1/2) 2 w5).2 with hw6
  have b7 := uniform_mem (1/2) 2 w6 (by norm_num) v6
  have v7 := uniform_valid (1/2) 2 w6 v6
  constructor
  · refine ⟨(uniform 0 (2 * M.pi) w).1,
      (uniform 0 (M.pi / 2) (uniform 0 (2 * M.pi) w).2).1,
      (uniform 2 4 w2).1, (uniform 1000 2000 w3).1,
      (uniform 2700 3500 w4).1, (uniform (1/2) 2 w5).1,
      (uniform (1/2) 2 w6).1,
      b1.1, b1.2, b2.1, b2.2, b3.1, b3.2, b4.1, b4.2, b5.1, b5.2,
      b6.1, b6.2, b7.1, b7.2, ?_, ?_, ?_, ?_⟩ <;>
      simp [dramaticStep, dramaticIterFrom, add_area_light, entryField,
        dictGet, hw2, hw3, hw4, hw5, hw6]
  · simpa [dramaticStep, dramaticIterFrom, add_area_light,
      hw2, hw3, hw4, hw5, hw6] using v7

/-- The numeric fields of one random-points step's entry come from
in-bound draws, and the step keeps the random source valid. -/
theorem randomStep_bounds (M : MathFns) (hpi : 0 ≤ M.pi) (i : Nat)
    (w : World) (hv : w.rng.valid) :
    (∃ theta phi r energy temp : ℚ,
      0 ≤ theta ∧ theta ≤ 2 * M.pi ∧ 0 ≤ phi ∧ phi ≤ M.pi ∧
      2 ≤ r ∧ r ≤ 4 ∧ 300 ≤ energy ∧ energy ≤ 800 ∧
      4000 ≤ temp ∧ temp ≤ 5500 ∧
      entryField (randomStep M i w).2.1 "energy" = some (.num energy) ∧
      entryField (randomStep M i w).2.1 "color_temperature" =
        some (.num temp) ∧
      entryField (randomStep M i w).2.1 "color" =
        some (.arr [.num (blackbody_to_rgb temp).1,
                    .num (blackbody_to_rgb temp).2.1,
                    .num (blackbody_to_rgb temp).2.2]) ∧
      entryField (randomStep M i w).2.1 "size" = some (.num (1/10)) ∧
      entryField (randomStep M i w).2.1 "position" =
        some (.arr [.num (r * M.sin phi * M.cos theta),
                    .num (r * M.sin phi * M.sin theta),
                    .num (r * M.cos phi)])) ∧
    (randomStep M i w).2.2.rng.valid := by
  have b1 := uniform_mem 0 (2 * M.pi) w (by linarith) hv
  have v1 := uniform_valid 0 (2 * M.pi) w hv
  have b2 := uniform_mem 0 M.pi (uniform 0 (2 * M.pi) w).2 hpi v1
  have v2 := uniform_valid 0 M.pi (uniform 0 (2 * M.pi) w).2 v1
  set w2 := (uniform 0 M.pi (uniform 0 (2 * M.pi) w).2).2 with hw2
  have b3 := uniform_mem 2 4 w2 (by norm_num) v2
  have v3 := uniform_valid 2 4 w2 v2
  set w3 := (uniform 2 4 w2).2 with hw3
  have b4 := uniform_mem 300 800 w3 (by norm_num) v3
  have v4 := uniform_valid 300 800 w3 v3
  set w4 := (uniform 300 800 w3).2 with hw4
  have b5 := uniform_mem 4000 5500 w4 (by norm_num) v4
  have v5 := uniform_valid 4000 5500 w4 v4
  constructor
  · refine ⟨(uniform 0 (2 * M.pi) w).1,
      (uniform 0 M.pi (uniform 0 (2 * M.pi) w).2).1,
      (uniform 2 4 w2).1, (uniform 300 800 w3).1,
      (uniform 4000 5500 w4).1,
      b1.1, b1.2, b2.1, b2.2, b3.1, b3.2, b4.1, b4.2, b5.1, b5.2,
      ?_, ?_, ?_, ?_, ?_⟩ <;>
      simp [randomStep, randomIterFrom, add_point_light, entryField,
        dictGet, hw2, hw3, hw4]
  · simpa [randomStep, randomIterFrom, add_point_light,
      hw2, hw3, hw4] using v5

/-- Every entry emitted by the dramatic loop has in-bound numeric
fields. -/
theorem dramaticLoop_bounds (M : MathFns) (hpi : 0 ≤ M.pi) :
    ∀ (n i : Nat) (w : World), w.rng.valid →
      ∀ e ∈ (dramaticLoop M n i w).2.1, ∃ theta phi r energy temp s1 s2 : ℚ,
        0 ≤ theta ∧ theta ≤ 2 * M.pi ∧ 0 ≤ phi ∧ phi ≤ M.pi / 2 ∧
        2 ≤ r ∧ r ≤ 4 ∧ 1000 ≤ energy ∧ energy ≤ 2000 ∧
        2700 ≤ temp ∧ temp ≤ 3500 ∧ 1/2 ≤ s1 ∧ s1 ≤ 2 ∧
        1/2 ≤ s2 ∧ s2 ≤ 2 ∧
        entryField e "energy" = some (.num energy) ∧
        entryField e "color_temperature" = some (.num temp) ∧
        entryField e "size" = some (.arr [.num s1, .num s2]) ∧
        entryField e "position" =
          some (.arr [.num (r * M.sin phi * M.cos theta),
                      .num (r * M.sin phi * M.sin theta),
                      .num (r * M.cos phi)]) := by
  intro n
  induction n with
  | zero => intro i w hv e he; simp [dramaticLoop] at he
  | succ n ih =>
    intro i w hv e he
    simp only [dramaticLoop, List.mem_cons] at he
    rcases he with he | he
    · subst he
      exact (dramaticStep_bounds M hpi i w hv).1
    · exact ih (i + 1) (dramaticStep M i w).2.2
        (dramaticStep_bounds M hpi i w hv).2 e he

/-- Every entry emitted by the random-points loop has in-bound numeric
fields, with both the drawn temperature and its derived color
retained. -/
theorem randomLoop_bounds (M : MathFns) (hpi : 0 ≤ M.pi) :
    ∀ (n i : Nat) (w : World), w.rng.valid →
      ∀ e ∈ (randomLoop M n i w).2.1, ∃ theta phi r energy temp : ℚ,
        0 ≤ theta ∧ theta ≤ 2 * M.pi ∧ 0 ≤ phi ∧ phi ≤ M.pi ∧
        2 ≤ r ∧ r ≤ 4 ∧ 300 ≤ energy ∧ energy ≤ 800 ∧
        4000 ≤ temp ∧ temp ≤ 5500 ∧
        entryField e "energy" = some (.num energy) ∧
        entryField e "color_temperature" = some (.num temp) ∧
        entryField e "color" =
          some (.arr [.num (blackbody_to_rgb temp).1,
                      .num (blackbody_to_rgb temp).2.1,
                      .num (blackbody_to_rgb temp).2.2]) ∧
        entryField e "size" = some (.num (1/10)) ∧
        entryField e "position" =
          some (.arr [.num (r * M.sin phi * M.cos theta),
                      .num (r * M.sin phi * M.sin theta),
                      .num (r * M.cos phi)]) := by
  intro n
  induction n with
  | zero => intro i w hv e he; simp [randomLoop] at he
  | succ n ih =>
    intro i w hv e he
    simp only [randomLoop, List.mem_cons] at he
    rcases he with he | he
    · subst he
      exact (randomStep_bounds M hpi i w hv).1
    · exact ih (i + 1) (randomStep M i w).2.2
        (randomStep_bounds M hpi i w hv).2 e he

/-- A successful forced-archetype generation run is the dispatched
sampler's output. -/
theorem generate_forced (M : MathFns) (s : String) (w : World)
    (hmem : s ∈ lighting_type_names) (l : List Light) (m : Dict)
    (w₁ : World)
    (h : generate_random_lighting_setup M (some s) w = (.ok (l, m), w₁)) :
    l = (dispatchLighting M s w).1 ∧ m = (dispatchLighting M s w).2.1 := by
  simp only [generate_random_lighting_setup, if_pos hmem, Prod.mk.injEq,
    Except.ok.injEq] at h
  exact ⟨h.1.1.symm, h.1.2.symm⟩

/-- C8: Interval bounds: with a valid random source (and a nonnegative
pi interpretation), every numeric field sampled by
`generate_random_lighting_setup` lies within its documented closed
interval — Studio energies `[800,1500]`, `[200,600]`, `[400,800]` and
temperatures `[4000,5500]`, `[6000,7500]`, `[2700,3500]`; Dramatic
energy `[1000,2000]`, radius `[2,4]`, warm temperature, sizes
`[0.5,2]`; Natural sun and fill parameters; RandomPoints energy
`[300,800]`, radius `[2,4]`, neutral temperature; EnvironmentOnly
strength `[0.8,1.5]`. -/
theorem C8_interval_bounds (M : MathFns) (w : World)
    (hv : w.rng.valid) (hpi : 0 ≤ M.pi) :
    (∀ l m w₁, generate_random_lighting_setup M (some "studio") w =
        (.ok (l, m), w₁) →
      ∃ ke fe be kt ft bt : ℚ,
        800 ≤ ke ∧ ke ≤ 1500 ∧ 200 ≤ fe ∧ fe ≤ 600 ∧
        400 ≤ be ∧ be ≤ 800 ∧ 4000 ≤ kt ∧ kt ≤ 5500 ∧
        6000 ≤ ft ∧ ft ≤ 7500 ∧ 2700 ≤ bt ∧ bt ≤ 3500 ∧
        m = [("lighting_type", JVal.str "studio"),
             ("lights", JVal.arr
               [studioMetaEntry "key" ke kt [4, -4, 4]
                  [radians M 45, 0, radians M 45] [2, 1],
                studioMetaEntry "fill" fe ft [-4, -4, 2]
                  [radians M 30, 0, radians M (-45)] [3, 2],
                studioMetaEntry "back" be bt [0, 4, 3]
                  [radians M (-45), 0, 0] [2, 1/2]])] ∧
        l = [Light.area (4, -4, 4)
               (radians M 45, radians M 0, radians M 45) ke
               (blackbody_to_rgb kt) 2 (some 1) "RECTANGLE",
             Light.area (-4, -4, 2)
               (radians M 30, radians M 0, radians M (-45)) fe
               (blackbody_to_rgb ft) 3 (some 2) "RECTANGLE",
             Light.area (0, 4, 3)
               (radians M (-45), radians M 0, radians M 0) be
               (blackbody_to_rgb bt) 2 (some (1/2)) "RECTANGLE"]) ∧
    (∀ l m w₁, generate_random_lighting_setup M (some "dramatic") w =
        (.ok (l, m), w₁) →
      ∀ e ∈ lightsOf m, ∃ theta phi r energy temp s1 s2 : ℚ,
        0 ≤ theta ∧ theta ≤ 2 * M.pi ∧ 0 ≤ phi ∧ phi ≤ M.pi / 2 ∧
        2 ≤ r ∧ r ≤ 4 ∧ 1000 ≤ energy ∧ energy ≤ 2000 ∧
        2700 ≤ temp ∧ temp ≤ 3500 ∧ 1/2 ≤ s1 ∧ s1 ≤ 2 ∧
        1/2 ≤ s2 ∧ s2 ≤ 2 ∧
        entryField e "energy" = some (.num energy) ∧
        entryField e "color_temperature" = some (.num temp) ∧
        entryField e "size" = some (.arr [.num s1, .num s2]) ∧
        entryField e "position" =
          some (.arr [.num (r * M.sin phi * M.cos theta),
                      .num (r * M.sin phi * M.sin theta),
                      .num (r * M.cos phi)])) ∧
    (∀ l m w₁, generate_random_lighting_setup M (some "natural") w =
        (.ok (l, m), w₁) →
      ∃ elev azim sen sang stemp px py pz fen ftemp fs1 fs2 : ℚ,
        -60 ≤ elev ∧ elev ≤ -30 ∧ 0 ≤ azim ∧ azim ≤ 360 ∧
        2 ≤ sen ∧ sen ≤ 5 ∧ 1/2 ≤ sang ∧ sang ≤ 5 ∧
        4000 ≤ stemp ∧ stemp ≤ 5500 ∧ -3 ≤ px ∧ px ≤ 3 ∧
        -3 ≤ py ∧ py ≤ 3 ∧ 1 ≤ pz ∧ pz ≤ 3 ∧
        200 ≤ fen ∧ fen ≤ 400 ∧ 6000 ≤ ftemp ∧ ftemp ≤ 7500 ∧
        1 ≤ fs1 ∧ fs1 ≤ 3 ∧ 1 ≤ fs2 ∧ fs2 ≤ 3 ∧
        m = [("lighting_type", JVal.str "natural"),
             ("lights", JVal.arr
               [.obj [("type", .str "sun"), ("role", .str "main"),
                      ("energy", .num sen),
                      ("color_temperature", .num stemp),
                      ("rotation", .arr [.num (radians M elev),
                                         .num (radians M azim), .num 0]),
                      ("angle", .num (radians M sang))],
                .obj [("type", .str "area"), ("role", .str "fill"),
                      ("energy", .num fen),
                      ("color_temperature", .num ftemp),
                      ("position", .arr [.num px, .num py, .num pz]),
                      ("size", .arr [.num fs1, .num fs2])]])] ∧
        l = [Light.sun (radians M elev, radians M azim, 0) sen
               (blackbody_to_rgb stemp) (radians M sang),
             Light.area (px, py, pz) (0, 0, 0) fen
               (blackbody_to_rgb ftemp) fs1 (some fs2) "RECTANGLE"]) ∧
    (∀ l m w₁, generate_random_lighting_setup M (some "random") w =
        (.ok (l, m), w₁) →
      ∀ e ∈ lightsOf m, ∃ theta phi r energy temp : ℚ,
        0 ≤ theta ∧ theta ≤ 2 * M.pi ∧ 0 ≤ phi ∧ phi ≤ M.pi ∧
        2 ≤ r ∧ r ≤ 4 ∧ 300 ≤ energy ∧ energy ≤ 800 ∧
        4000 ≤ temp ∧ temp ≤ 5500 ∧
        entryField e "energy" = some (.num energy) ∧
        entryField e "color_temperature" = some (.num temp) ∧
        entryField e "color" =
          some (.arr [.num (blackbody_to_rgb temp).1,
                      .num (blackbody_to_rgb temp).2.1,
                      .num (blackbody_to_rgb temp).2.2]) ∧
        entryField e "size" = some (.num (1/10)) ∧
        entryField e "position" =
          some (.arr [.num (r * M.sin phi * M.cos theta),
                      .num (r * M.sin phi * M.sin theta),
                      .num (r * M.cos phi)])) ∧
    (∀ l m w₁, generate_random_lighting_setup M (some "env_map") w =
        (.ok (l, m), w₁) →
      ∃ st : ℚ, 4/5 ≤ st ∧ st ≤ 3/2 ∧
        m = [("lighting_type", JVal.str "env_map"),
             ("lights", JVal.arr []),
             ("env_map", JVal.obj [("strength", JVal.num st)])]) := by
  refine ⟨fun l m w₁ h => ?_, fun l m w₁ h => ?_, fun l m w₁ h => ?_,
    fun l m w₁ h => ?_, fun l m w₁ h => ?_⟩
  · obtain ⟨hl, hm⟩ := generate_forced M "studio" w
      (by simp [lighting_type_names]) l m w₁ h
    rw [show dispatchLighting M "studio" w = studioBranch M w from by
      simp [dispatchLighting]] at hl hm
    have b1 := uniform_mem 800 1500 w (by norm_num) hv
    have v1 := uniform_valid 800 1500 w hv
    set w1 := (uniform 800 1500 w).2 with hw1
    have b2 := uniform_mem 200 600 w1 (by norm_num) v1
    have v2 := uniform_valid 200 600 w1 v1
    set w2 := (uniform 200 600 w1).2 with hw2
    have b3 := uniform_mem 400 800 w2 (by norm_num) v2
    have v3 := uniform_valid 400 800 w2 v2
    set w3 := (uniform 400 800 w2).2 with hw3
    have b4 := uniform_mem 4000 5500 w3 (by norm_num) v3
    have v4 := uniform_valid 4000 5500 w3 v3
    set w4 := (uniform 4000 5500 w3).2 with hw4
    have b5 := uniform_mem 6000 7500 w4 (by norm_num) v4
    have v5 := uniform_valid 6000 7500 w4 v4
    set w5 := (uniform 6000 7500 w4).2 with hw5
    have b6 := uniform_mem 2700 3500 w5 (by norm_num) v5
    refine ⟨(uniform 800 1500 w).1, (uniform 200 600 w1).1,
      (uniform 400 800 w2).1, (uniform 4000 5500 w3).1,
      (uniform 6000 7500 w4).1, (uniform 2700 3500 w5).1,
      b1.1, b1.2, b2.1, b2.2, b3.1, b3.2, b4.1, b4.2, b5.1, b5.2,
      b6.1, b6.2, ?_, ?_⟩
    · rw [hm]
      simp [studioBranch, hw1, hw2, hw3, hw4, hw5]
    · rw [hl]
      simp [studioBranch, setup_studio_lighting, add_area_light,
        hw1, hw2, hw3, hw4, hw5]
  · obtain ⟨hl, hm⟩ := generate_forced M "dramatic" w
      (by simp [lighting_type_names]) l m w₁ h
    rw [show dispatchLighting M "dramatic" w = dramaticBranch M w from by
      simp [dispatchLighting]] at hm
    intro e he
    rw [hm] at he
    simp only [dramaticBranch, lightsOf, dictGet, if_pos, if_neg,
      String.reduceEq, reduceIte] at he
    exact dramaticLoop_bounds M hpi (randint 1 2 w).1 0 (randint 1 2 w).2
      (randint_valid 1 2 w hv) e he
  · obtain ⟨hl, hm⟩ := generate_forced M "natural" w
      (by simp [lighting_type_names]) l m w₁ h
    rw [show dispatchLighting M "natural" w = naturalBranch M w from by
      simp [dispatchLighting]] at hl hm
    have b1 := uniform_mem (-60) (-30) w (by norm_num) hv
    have v1 := uniform_valid (-60) (-30) w hv
    set w1 := (uniform (-60) (-30) w).2 with hw1
    have b2 := uniform_mem 0 360 w1 (by norm_num) v1
    have v2 := uniform_valid 0 360 w1 v1
    set w2 := (uniform 0 360 w1).2 with hw2
    have b3 := uniform_mem 2 5 w2 (by norm_num) v2
    have v3 := uniform_valid 2 5 w2 v2
    set w3 := (uniform 2 5 w2).2 with hw3
    have b4 := uniform_mem (1/2) 5 w3 (by norm_num) v3
    have v4 := uniform_valid (1/2) 5 w3 v3
    set w4 := (uniform (1/2) 5 w3).2 with hw4
    have b5 := uniform_mem 4000 5500 w4 (by norm_num) v4
    have v5 := uniform_valid 4000 5500 w4 v4
    set w5 := (uniform 4000 5500 w4).2 with hw5
    set ws := (add_sun_light
      (radians M (uniform (-60) (-30) w).1,
       radians M (uniform 0 360 w1).1, 0)
      (uniform 2 5 w2).1 (blackbody_to_rgb (uniform 4000 5500 w4).1)
      (radians M (uniform (1/2) 5 w3).1) w5).2 with hws
    have vs : ws.rng.valid := v5
    have b6 := uniform_mem (-3) 3 ws (by norm_num) vs
    have v6 := uniform_valid (-3) 3 ws vs
    set w6 := (uniform (-3) 3 ws).2 with hw6
    have b7 := uniform_mem (-3) 3 w6 (by norm_num) v6
    have v7 := uniform_valid (-3) 3 w6 v6
    set w7 := (uniform (-3) 3 w6).2 with hw7
    have b8 := uniform_mem 1 3 w7 (by norm_num) v7
    have v8 := uniform_valid 1 3 w7 v7
    set w8 := (uniform 1 3 w7).2 with hw8
    have b9 := uniform_mem 200 400 w8 (by norm_num) v8
    have v9 := uniform_valid 200 400 w8 v8
    set w9 := (uniform 200 400 w8).2 with hw9
    have b10 := uniform_mem 6000 7500 w9 (by norm_num) v9
    have v10 := uniform_valid 6000 7500 w9 v9
    set w10 := (uniform 6000 7500 w9).2 with hw10
    have b11 := uniform_mem 1 3 w10 (by norm_num) v10
    have v11 := uniform_valid 1 3 w10 v10
    set w11 := (uniform 1 3 w10).2 with hw11
    have b12 := uniform_mem 1 3 w11 (by norm_num) v11
    refine ⟨(uniform (-60) (-30) w).1, (uniform 0 360 w1).1,
      (uniform 2 5 w2).1, (uniform (1/2) 5 w3).1,
      (uniform 4000 5500 w4).1, (uniform (-3) 3 ws).1,
      (uniform (-3) 3 w6).1, (uniform 1 3 w7).1, (uniform 200 400 w8).1,
      (uniform 6000 7500 w9).1, (uniform 1 3 w10).1, (uniform 1 3 w11).1,
      b1.1, b1.2, b2.1, b2.2, b3.1, b3.2, b4.1, b4.2, b5.1, b5.2,
      b6.1, b6.2, b7.1, b7.2, b8.1, b8.2, b9.1, b9.2, b10.1, b10.2,
      b11.1, b11.2, b12.1, b12.2, ?_, ?_⟩
    · rw [hm]
      simp [naturalBranch, add_sun_light, hw1, hw2, hw3, hw4, hw5, hws,
        hw6, hw7, hw8, hw9, hw10, hw11]
    · rw [hl]
      simp [naturalBranch, add_sun_light, add_area_light, hw1, hw2, hw3,
        hw4, hw5, hws, hw6, hw7, hw8, hw9, hw10, hw11]
  · obtain ⟨hl, hm⟩ := generate_forced M "random" w
      (by simp [lighting_type_names]) l m w₁ h
    rw [show dispatchLighting M "random" w = randomBranch M w from by
      simp [dispatchLighting]] at hm
    intro e he
    rw [hm] at he
    simp only [randomBranch, lightsOf, dictGet, if_pos, if_neg,
      String.reduceEq, reduceIte] at he
    exact randomLoop_bounds M hpi (randint 2 5 w).1 0 (randint 2 5 w).2
      (randint_valid 2 5 w hv) e he
  · obtain ⟨hl, hm⟩ := generate_forced M "env_map" w
      (by simp [lighting_type_names]) l m w₁ h
    rw [show dispatchLighting M "env_map" w = envBranch w from by
      simp [dispatchLighting]] at hm
    have b1 := uniform_mem (4/5) (3/2) w (by norm_num) hv
    refine ⟨(uniform (4/5) (3/2) w).1, b1.1, b1.2, ?_⟩
    rw [hm]
    simp [envBranch]

theorem C8_interval_bounds_witness :
    ∃ ke fe be kt ft bt : ℚ,
      800 ≤ ke ∧ ke ≤ 1500 ∧ 200 ≤ fe ∧ fe ≤ 600 ∧
      400 ≤ be ∧ be ≤ 800 ∧ 4000 ≤ kt ∧ kt ≤ 5500 ∧
      6000 ≤ ft ∧ ft ≤ 7500 ∧ 2700 ≤ bt ∧ bt ≤ 3500 ∧
      gen0Meta = [("lighting_type", JVal.str "studio"),
           ("lights", JVal.arr
             [studioMetaEntry "key" ke kt [4, -4, 4]
                [radians M0 45, 0, radians M0 45] [2, 1],
              studioMetaEntry "fill" fe ft [-4, -4, 2]
                [radians M0 30, 0, radians M0 (-45)] [3, 2],
              studioMetaEntry "back" be bt [0, 4, 3]
                [radians M0 (-45), 0, 0] [2, 1/2]])] ∧
      gen0Lights = [Light.area (4, -4, 4)
             (radians M0 45, radians M0 0, radians M0 45) ke
             (blackbody_to_rgb kt) 2 (some 1) "RECTANGLE",
           Light.area (-4, -4, 2)
             (radians M0 30, radians M0 0, radians M0 (-45)) fe
             (blackbody_to_rgb ft) 3 (some 2) "RECTANGLE",
           Light.area (0, 4, 3)
             (radians M0 (-45), radians M0 0, radians M0 0) be
             (blackbody_to_rgb bt) 2 (some (1/2)) "RECTANGLE"] :=
  (C8_interval_bounds M0 w0
    (by intro u hu; exact absurd hu (List.not_mem_nil u))
    (by norm_num [M0])).1 gen0Lights gen0Meta gen0.2 gen0_eq

